import Mathlib

/-!
Verification of the `verselapi` Flask application (`api/index.py`).

The application is a thin HTTP facade over external media-extraction
libraries (`yt_dlp`, `youtube_search`).  This development shallowly embeds
the application code in Lean:

* JSON-serializable Python values become the inductive type `J`;
* the external libraries are an oracle (`Engine`) supplied as a parameter:
  each call either returns a result or raises (`Except String`);
* the in-memory response cache (`flask_caching` simple cache) is a total
  map `String → Option J` with get/set/delete;
* each Flask route handler becomes a function
  `Engine → Req → Cache → Option (Resp × Cache)`, where `none` models an
  exception escaping the handler (an unhandled crash) and `some` a
  returned HTTP response together with the new cache state;
* Python dictionaries coming from the external libraries are embedded as
  structures holding exactly the keys the application reads, with `J` or
  `Option`-typed fields (`none` models an absent key / `None` value).

Python-specific behaviours are modelled explicitly: truthiness (`J.truthy`),
the short-circuiting `or` on values (`J.orElse`), `str.strip` (`pyStrip`),
`str.split` (`pySplitColon`, `splitVeq`), `int(...)` which raises
`ValueError` on non-numeric strings (`pyToInt` returning `Option`), and
`str(...)` (`J.pyStr`).
-/

/-- A JSON-serializable Python value. -/
inductive J where
  | null : J
  | b : Bool → J
  | i : Int → J
  | q : ℚ → J
  | s : String → J
  | arr : List J → J
  | obj : List (String × J) → J

/-- Python truthiness of a value (`bool(x)`). -/
def J.truthy : J → Bool
  | .null => false
  | .b v => v
  | .i n => decide (n ≠ 0)
  | .q v => decide (v ≠ 0)
  | .s v => decide (v ≠ "")
  | .arr xs => !xs.isEmpty
  | .obj kvs => !kvs.isEmpty

/-- Python `x or y`: `x` if truthy, else `y`. -/
def J.orElse (a b : J) : J := if a.truthy then a else b

/-- Python `str(x)`.  Exact for `None`, booleans, strings and integers,
which are the only shapes reaching `str`/f-string interpolation in the
modelled code on data the external libraries produce; rationals stand in
for floats and collections get a fixed placeholder rendering. -/
def J.pyStr : J → String
  | .null => "None"
  | .b true => "True"
  | .b false => "False"
  | .i n => toString n
  | .q v => toString v
  | .s v => v
  | .arr _ => "[...]"
  | .obj _ => "<list-or-dict>"

/-- The JSON error body `\x7b"error": msg\x7d` used throughout the app. -/
def errBody (msg : String) : J := .obj [("error", .s msg)]

/-- Whether a JSON body is an object containing an `error` key. -/
def hasErrorKey : J → Bool
  | .obj kvs => kvs.any (fun p => p.1 = "error")
  | _ => false

/-- Python `str.strip()` (whitespace at both ends). -/
def pyStrip (str : String) : String :=
  String.mk (((str.data.dropWhile Char.isWhitespace).reverse.dropWhile
    Char.isWhitespace).reverse)

/-- Python `s.split(':')` on the character list of `s`. -/
def pySplitColonAux : List Char → List Char → List String
  | [], acc => [String.mk acc.reverse]
  | c :: rest, acc =>
    if c = ':' then String.mk acc.reverse :: pySplitColonAux rest []
    else pySplitColonAux rest (c :: acc)

/-- Python `s.split(':')`. -/
def pySplitColon (s : String) : List String := pySplitColonAux s.data []

/-- Python `s.split("v=")` (split on the two-character separator). -/
def splitVeqAux : List Char → List Char → List String
  | [], acc => [String.mk acc.reverse]
  | 'v' :: '=' :: rest, acc => String.mk acc.reverse :: splitVeqAux rest []
  | c :: rest, acc => splitVeqAux rest (c :: acc)

/-- Python `s.split("v=")`. -/
def splitVeq (s : String) : List String := splitVeqAux s.data []

/-- Python `s.isdigit()` (restricted to ASCII digits). -/
def pyIsDigit (s : String) : Bool := decide (s.data ≠ []) && s.data.all Char.isDigit

/-- Decimal value of a digit list. -/
def digitsVal (ds : List Char) : Nat :=
  ds.foldl (fun acc c => acc * 10 + (c.toNat - '0'.toNat)) 0

/-- Python `int(s)` for a string: strips whitespace, accepts an optional
sign followed by digits, and raises `ValueError` (here: `none`) otherwise.
(Underscore digit separators accepted by CPython are not modelled; no
modelled input contains them.) -/
def pyToInt (str : String) : Option Int :=
  let cs := (pyStrip str).data
  match cs with
  | '+' :: ds =>
    if ds ≠ [] ∧ ds.all Char.isDigit then some (Int.ofNat (digitsVal ds)) else none
  | '-' :: ds =>
    if ds ≠ [] ∧ ds.all Char.isDigit then some (-(Int.ofNat (digitsVal ds))) else none
  | ds =>
    if ds ≠ [] ∧ ds.all Char.isDigit then some (Int.ofNat (digitsVal ds)) else none

/-- Function `to_iso_duration` from the source.  Returns `none` when the Python
function raises (a `ValueError` from `int(...)` on a 2- or 3-field input
with a non-numeric field), otherwise `some` of the returned string. -/
def to_iso_duration (duration_str : String) : Option String :=
  let parts : List String :=
    if duration_str ≠ "" then pySplitColon duration_str else []
  match parts with
  | [h, m, s] => do
    let hv ← pyToInt h
    let base := if hv ≠ 0 then "PT" ++ toString hv ++ "H" else "PT"
    let mv ← pyToInt m
    let sv ← pyToInt s
    pure (base ++ toString mv ++ "M" ++ toString sv ++ "S")
  | [m, s] => do
    let mv ← pyToInt m
    let sv ← pyToInt s
    pure ("PT" ++ toString mv ++ "M" ++ toString sv ++ "S")
  | [p] =>
    if pyIsDigit p then (pyToInt p).map (fun v => "PT" ++ toString v ++ "S")
    else some "PT0S"
  | _ => some "PT0S"

/-- One format dictionary of an extraction result, restricted to the keys
`build_formats_list` reads.  `none` models an absent key (Python
`dict.get` returning `None`). -/
structure Fmt where
  format_id : J := .null
  ext : J := .null
  vcodec : Option String := none
  acodec : Option String := none
  url : Option String := none
  filesize : Option Nat := none
  filesize_approx : Option Nat := none
  width : Option Nat := none
  height : Option Nat := none
  fps : Option ℚ := none
  abr : Option ℚ := none
  asr : Option ℚ := none

/-- Python falsy-`or` on an optional byte count (`x or y` where `0` and
`None` are falsy). -/
def orFalsyNat (o : Option Nat) (dflt : Nat) : Nat :=
  match o with
  | some n => if n = 0 then dflt else n
  | none => dflt

/-- Function `get_size_bytes` from the source:
`fmt.get("filesize") or fmt.get("filesize_approx") or 0`. -/
def get_size_bytes (f : Fmt) : Nat := orFalsyNat f.filesize (orFalsyNat f.filesize_approx 0)

/-- Two-digit zero-padded rendering. -/
def pad2 (n : Nat) : String := if n < 10 then "0" ++ toString n else toString n

/-- Rendering of `t / den` with two decimals, rounding half to even.
(Idealizes CPython float formatting by rounding the exact rational.) -/
def fmt2 (t den : Nat) : String :=
  let whole := t / den
  let rem := t % den
  let d := if rem * 2 > den ∨ (rem * 2 = den ∧ whole % 2 = 1) then whole + 1 else whole
  toString (d / 100) ++ "." ++ pad2 (d % 100)

/-- Function `format_size` from the source. -/
def format_size (bytes_val : Nat) : String :=
  if bytes_val ≥ 1000000000 then fmt2 (bytes_val * 100) 1000000000 ++ " GB"
  else if bytes_val ≥ 1000000 then fmt2 (bytes_val * 100) 1000000 ++ " MB"
  else if bytes_val ≥ 1000 then fmt2 (bytes_val * 100) 1000 ++ " KB"
  else toString bytes_val ++ " B"

/-- One entry of the list `build_formats_list` returns. -/
structure FmtEntry where
  format_id : J
  ext : J
  kind : String
  filesize_bytes : Nat
  filesize : String
  width : Option Nat
  height : Option Nat
  fps : Option ℚ
  abr : Option ℚ
  asr : Option ℚ
  url : String

/-- The body of the `for` loop of `build_formats_list`: `none` models
`continue` (entry skipped). -/
def buildFmtEntry (f : Fmt) : Option FmtEntry :=
  match f.url with
  | none => none
  | some url_f =>
    if url_f = "" then none
    else
      let has_video : Bool := decide (f.vcodec ≠ some "none")
      let has_audio : Bool := decide (f.acodec ≠ some "none")
      let kind? : Option String :=
        if has_video && has_audio then some "progressive"
        else if has_video then some "video-only"
        else if has_audio then some "audio-only"
        else none
      match kind? with
      | none => none
      | some kind =>
        let size := get_size_bytes f
        some { format_id := f.format_id, ext := f.ext, kind := kind,
               filesize_bytes := size, filesize := format_size size,
               width := f.width, height := f.height, fps := f.fps,
               abr := f.abr, asr := f.asr, url := url_f }

/-- A thumbnail dictionary of a related-video entry. -/
structure Thumb where
  url : J := .null

/-- A related-video dictionary (`info["related"]` entries), restricted to
the keys `api_all` reads. -/
structure RelVid where
  id : J := .null
  title : J := .null
  webpage_url : J := .null
  url : J := .null
  thumbnails : Option (List Thumb) := none

/-- A playlist/search entry dictionary (`info["entries"]` entries),
restricted to the keys the app reads. -/
structure Entry where
  id : J := .null
  title : J := .null
  webpage_url : J := .null
  duration : J := .null

/-- An extraction-result dictionary, restricted to the keys the app
reads.  A `J`-typed field set to `.null` models an absent key. -/
structure Info where
  id : J := .null
  title : J := .null
  webpage_url : J := .null
  duration : J := .null
  upload_date : J := .null
  view_count : J := .null
  like_count : J := .null
  thumbnail : J := .null
  description : J := .null
  tags : J := .null
  is_live : J := .null
  age_limit : J := .null
  average_rating : J := .null
  uploader : J := .null
  uploader_url : J := .null
  channel_url : J := .null
  uploader_id : J := .null
  subscriber_count : J := .null
  channel_follower_count : J := .null
  video_count : J := .null
  playlist_count : J := .null
  thumbnails : J := .null
  formats : List Fmt := []
  related : List RelVid := []
  entries : List Entry := []

/-- Function `build_formats_list` from the source. -/
def build_formats_list (info : Info) : List FmtEntry :=
  info.formats.filterMap buildFmtEntry

/-- One search result dictionary of `YoutubeSearch(...).to_dict()`,
restricted to the keys `api_fast_meta` reads. -/
structure Sr where
  title : J := .null
  url_suffix : Option String := none
  duration : Option String := none
  thumbnails : Option (List J) := none

def jOptNat : Option Nat → J
  | none => .null
  | some n => .i n

def jOptQ : Option ℚ → J
  | none => .null
  | some v => .q v

def jOptStr : Option String → J
  | none => .null
  | some s => .s s

/-- JSON encoding of a format-list entry (the dict built in
`build_formats_list`). -/
def FmtEntry.toJ (e : FmtEntry) : J :=
  .obj [("format_id", e.format_id), ("ext", e.ext), ("kind", .s e.kind),
        ("filesize_bytes", .i e.filesize_bytes), ("filesize", .s e.filesize),
        ("width", jOptNat e.width), ("height", jOptNat e.height),
        ("fps", jOptQ e.fps), ("abr", jOptQ e.abr), ("asr", jOptQ e.asr),
        ("url", .s e.url)]

def Fmt.toJ (f : Fmt) : J :=
  .obj [("format_id", f.format_id), ("ext", f.ext), ("vcodec", jOptStr f.vcodec),
        ("acodec", jOptStr f.acodec), ("url", jOptStr f.url),
        ("filesize", jOptNat f.filesize), ("filesize_approx", jOptNat f.filesize_approx),
        ("width", jOptNat f.width), ("height", jOptNat f.height),
        ("fps", jOptQ f.fps), ("abr", jOptQ f.abr), ("asr", jOptQ f.asr)]

def Thumb.toJ (t : Thumb) : J := .obj [("url", t.url)]

def RelVid.toJ (rel : RelVid) : J :=
  .obj [("id", rel.id), ("title", rel.title), ("webpage_url", rel.webpage_url),
        ("url", rel.url),
        ("thumbnails", match rel.thumbnails with
          | none => J.null
          | some ts => .arr (ts.map Thumb.toJ))]

def Entry.toJ (e : Entry) : J :=
  .obj [("id", e.id), ("title", e.title), ("webpage_url", e.webpage_url),
        ("duration", e.duration)]

/-- JSON encoding of a whole extraction-result dictionary (used by the
routes that cache and return the raw result verbatim). -/
def Info.toJ (i : Info) : J :=
  .obj [("id", i.id), ("title", i.title), ("webpage_url", i.webpage_url),
        ("duration", i.duration), ("upload_date", i.upload_date),
        ("view_count", i.view_count), ("like_count", i.like_count),
        ("thumbnail", i.thumbnail), ("description", i.description),
        ("tags", i.tags), ("is_live", i.is_live), ("age_limit", i.age_limit),
        ("average_rating", i.average_rating), ("uploader", i.uploader),
        ("uploader_url", i.uploader_url), ("channel_url", i.channel_url),
        ("uploader_id", i.uploader_id), ("subscriber_count", i.subscriber_count),
        ("channel_follower_count", i.channel_follower_count),
        ("video_count", i.video_count), ("playlist_count", i.playlist_count),
        ("thumbnails", i.thumbnails), ("formats", .arr (i.formats.map Fmt.toJ)),
        ("related", .arr (i.related.map RelVid.toJ)),
        ("entries", .arr (i.entries.map Entry.toJ))]

/-- The external libraries, as an oracle.  `ydlFull` is `yt_dlp` with
`ydl_opts_full`, `ydlMeta` with `ydl_opts_meta`; `ytSearch` is
`YoutubeSearch(q, max_results=1).to_dict()`; `now` is the wall-clock
string used by `/test`.  `.error msg` models the call raising an
exception with message `msg`; `.ok none` models `extract_info` returning
Python `None`. -/
structure Engine where
  ydlFull : String → Except String (Option Info)
  ydlMeta : String → Except String (Option Info)
  ytSearch : String → Except String (List Sr)
  now : String

/-- Which yt-dlp option preset a call uses. -/
inductive OptsKind where
  | full : OptsKind
  | meta : OptsKind

def engineOf : OptsKind → Engine → String → Except String (Option Info)
  | .full, E => E.ydlFull
  | .meta, E => E.ydlMeta

/-- Python `s or None` for a string already defaulted to the empty string. -/
def strOrNone (s : String) : Option String := if s = "" then none else some s

/-- Message of the `AttributeError` raised by calling a method on `None`. -/
def noneAttrMsg : String := "NoneType object has no attribute get"

/-- Function `extract_info` from the source.  Returns the pair
`(info, err-and-code)` mirroring the Python triple `(info, err, code)`
(whose last two components are always both present or both absent). -/
def extract_info (E : Engine) (url : Option String) (search_query : Option String)
    (opts : OptsKind) : Option Info × Option (J × Nat) :=
  match search_query with
  | some sq =>
    if sq ≠ "" then
      -- search path: ytsearch, then re-resolve the top result id
      match engineOf opts E ("ytsearch:" ++ sq) with
      | .error m => (none, some (errBody ("Extraction failed: " ++ m), 500))
      | .ok none =>
        -- result.get("entries") raises inside the try block
        (none, some (errBody ("Extraction failed: " ++ noneAttrMsg), 500))
      | .ok (some result) =>
        match result.entries with
        | [] => (none, some (errBody "No search results", 404))
        | first_video :: _ =>
          if first_video.id.truthy then
            match engineOf opts E
                ("https://www.youtube.com/watch?v=" ++ first_video.id.pyStr) with
            | .error m => (none, some (errBody ("Extraction failed: " ++ m), 500))
            | .ok info => (info, none)
          else (none, some (errBody "Invalid video ID from search", 404))
    else
      match url with
      | none =>
        -- ydl.extract_info(None) raises inside the try block
        (none, some (errBody "Extraction failed: NoneType url", 500))
      | some u =>
        match engineOf opts E u with
        | .error m => (none, some (errBody ("Extraction failed: " ++ m), 500))
        | .ok info => (info, none)
  | none =>
    match url with
    | none => (none, some (errBody "Extraction failed: NoneType url", 500))
    | some u =>
      match engineOf opts E u with
      | .error m => (none, some (errBody ("Extraction failed: " ++ m), 500))
      | .ok info => (info, none)

/-- An HTTP request: query parameters and headers. -/
structure Req where
  args : List (String × String)
  headers : List (String × String)

/-- Python `request.args.get(k)` (first binding wins). -/
def argGet (r : Req) (k : String) : Option String :=
  (r.args.find? (fun p => p.1 = k)).map (fun p => p.2)

/-- Python `request.args.get(k, d)`. -/
def argGetD (r : Req) (k d : String) : String := (argGet r k).getD d

/-- Python `request.headers.get(k)`. -/
def headerGet (r : Req) (k : String) : Option String :=
  (r.headers.find? (fun p => p.1 = k)).map (fun p => p.2)

/-- Python `"latest" in request.args`. -/
def hasLatest (r : Req) : Bool := (argGet r "latest").isSome

/-- Python truthiness of `request.args.get(k)` (`None` and the empty string are falsy). -/
def optTruthy (o : Option String) : Bool :=
  match o with
  | none => false
  | some s => decide (s ≠ "")

/-- The configured shared secret (`API_KEY` in the source). -/
def API_KEY : String := "zefron@123"

/-- Python `request.args.get("api_key") or request.headers.get("X-API-Key")`:
the effective supplied key after the falsy-`or`. -/
def effectiveApiKey (r : Req) : Option String :=
  match argGet r "api_key" with
  | some s => if s ≠ "" then some s else headerGet r "X-API-Key"
  | none => headerGet r "X-API-Key"

/-- The in-process response cache (`flask_caching` simple cache). -/
def Cache : Type := String → Option J

def emptyCache : Cache := fun _ => none

def cacheGet (c : Cache) (k : String) : Option J := c k

def cacheDelete (k : String) (c : Cache) : Cache :=
  fun x => if x = k then none else c x

def cacheSet (k : String) (v : J) (c : Cache) : Cache :=
  fun x => if x = k then some v else c x

/-- An HTTP response: status code and JSON body. -/
structure Resp where
  status : Nat
  body : J

/-- The result of running one route handler: `none` models an exception
escaping the handler (an unhandled crash), `some (resp, c)` a returned
response and the cache state afterwards. -/
def HResult : Type := Option (Resp × Cache)

/-- Body of the `/` route response. -/
def homeBody : J := .obj [("message", .s "âœ… YouTube API is alive")]

/-- The `/` route (`home` in the source). -/
def home (_E : Engine) (r : Req) (c : Cache) : HResult :=
  let key := "home"
  let c1 := if hasLatest r then cacheDelete key c else c
  match (cacheGet c1 key).filter J.truthy with
  | some data => some ({ status := 200, body := data }, c1)
  | none => some ({ status := 200, body := homeBody }, cacheSet key homeBody c1)

/-- The try-block of the search branch of `api_fast_meta`:
`.error` models a raised exception, `.ok none` the `result = None` case
(empty search results). -/
def fastMetaSearchResult (E : Engine) (q : String) : Except String (Option J) :=
  match E.ytSearch q with
  | .error m => .error m
  | .ok [] => .ok none
  | .ok (vid :: _) =>
    match vid.url_suffix with
    | none => .error "NoneType object has no attribute split"
    | some suf =>
      let link := "https://www.youtube.com/watch?v=" ++ (splitVeq suf).getLastD ""
      match to_iso_duration ((vid.duration).getD "") with
      | none => .error "invalid literal for int() with base 10"
      | some iso =>
        match vid.thumbnails with
        | some [] => .error "list index out of range"
        | tl =>
          let thumb := match tl with
            | none => J.null
            | some [] => J.null
            | some (t :: _) => t
          .ok (some (.obj [("title", vid.title), ("link", .s link),
            ("duration", .s iso), ("thumbnail", thumb)]))

/-- The try-block of the url branch of `api_fast_meta`. -/
def fastMetaUrlResult (E : Engine) (u : String) : Except String (Option J) :=
  match E.ydlMeta u with
  | .error m => .error m
  | .ok none => .error noneAttrMsg
  | .ok (some info) =>
    match to_iso_duration info.duration.pyStr with
    | none => .error "invalid literal for int() with base 10"
    | some iso =>
      .ok (some (.obj [("title", info.title), ("link", info.webpage_url),
        ("duration", .s iso), ("thumbnail", info.thumbnail)]))

/-- The `/api/fast-meta` route. -/
def api_fast_meta (E : Engine) (r : Req) (c : Cache) : HResult :=
  let q := pyStrip (argGetD r "search" "")
  let u := pyStrip (argGetD r "url" "")
  let key := "fast_meta:" ++ q ++ ":" ++ u
  let c1 := if hasLatest r then cacheDelete key c else c
  match cacheGet c1 key with
  | some cached => some ({ status := 200, body := cached }, c1)
  | none =>
    if q = "" ∧ u = "" then
      some ({ status := 400,
              body := errBody "Provide either \"search\" or \"url\" parameter" }, c1)
    else
      match (if q ≠ "" then fastMetaSearchResult E q else fastMetaUrlResult E u) with
      | .error m => some ({ status := 500, body := errBody m }, c1)
      | .ok none => some ({ status := 404, body := errBody "No results" }, c1)
      | .ok (some result) =>
        some ({ status := 200, body := result }, cacheSet key result c1)

/-- Thumbnail extraction of one suggestion in `api_all`:
`rel.get("thumbnails", [\x7b\x7d])[0].get("url")`; `none` models the
`IndexError` raised when the entry has an explicit empty thumbnail list. -/
def suggThumb (rel : RelVid) : Option J :=
  match rel.thumbnails with
  | none => some J.null
  | some [] => none
  | some (t :: _) => some t.url

/-- The `suggestions` list comprehension of `api_all`; `none` models a
raised `IndexError`. -/
def suggestionsOf : List RelVid → Option (List J)
  | [] => some []
  | rel :: rest =>
    match suggThumb rel with
    | none => none
    | some th =>
      (suggestionsOf rest).map (fun l =>
        J.obj [("id", rel.id), ("title", rel.title),
               ("url", rel.webpage_url.orElse rel.url), ("thumbnail", th)] :: l)

/-- The response body of `api_all`. -/
def allBody (info : Info) (fmts : List FmtEntry) (suggestions : List J) : J :=
  .obj [("title", info.title), ("video_url", info.webpage_url),
        ("duration", info.duration), ("upload_date", info.upload_date),
        ("view_count", info.view_count), ("like_count", info.like_count),
        ("thumbnail", info.thumbnail), ("description", info.description),
        ("tags", info.tags), ("is_live", info.is_live),
        ("age_limit", info.age_limit), ("average_rating", info.average_rating),
        ("channel", .obj [("name", info.uploader),
          ("url", info.uploader_url.orElse info.channel_url),
          ("id", info.uploader_id)]),
        ("formats", .arr (fmts.map FmtEntry.toJ)),
        ("suggestions", .arr suggestions)]

/-- The `/api/all` route.  It has no caching and no try/except of its
own: a `None` extraction result or an `IndexError` while building the
suggestions escapes as a crash (`none`). -/
def api_all (E : Engine) (r : Req) (c : Cache) : HResult :=
  let q := pyStrip (argGetD r "search" "")
  let u := pyStrip (argGetD r "url" "")
  if q = "" ∧ u = "" then
    some ({ status := 400, body := errBody "Provide \"url\" or \"search\"" }, c)
  else
    match extract_info E (strOrNone u) (strOrNone q) .full with
    | (_, some (err, code)) => some ({ status := code, body := err }, c)
    | (none, none) => none
    | (some info, none) =>
      match suggestionsOf info.related with
      | none => none
      | some suggestions =>
        some ({ status := 200, body := allBody info (build_formats_list info) suggestions }, c)

/-- The response body of `api_meta`. -/
def metaBody (info : Info) : J :=
  .obj [("metadata", .obj [("id", info.id), ("title", info.title),
    ("webpage_url", info.webpage_url), ("duration", info.duration),
    ("upload_date", info.upload_date), ("view_count", info.view_count),
    ("like_count", info.like_count), ("thumbnail", info.thumbnail),
    ("description", info.description), ("tags", info.tags),
    ("is_live", info.is_live), ("age_limit", info.age_limit),
    ("average_rating", info.average_rating), ("uploader", info.uploader),
    ("uploader_url", info.uploader_url), ("uploader_id", info.uploader_id)])]

/-- The `/api/meta` route.  No try/except: a `None` extraction result
crashes (`none`). -/
def api_meta (E : Engine) (r : Req) (c : Cache) : HResult :=
  let q := pyStrip (argGetD r "search" "")
  let u := pyStrip (argGetD r "url" "")
  let key := "meta:" ++ q ++ ":" ++ u
  let c1 := if hasLatest r then cacheDelete key c else c
  match (cacheGet c1 key).filter J.truthy with
  | some cached => some ({ status := 200, body := cached }, c1)
  | none =>
    if q = "" ∧ u = "" then
      some ({ status := 400, body := errBody "Provide \"url\" or \"search\"" }, c1)
    else
      match extract_info E (strOrNone u) (strOrNone q) .meta with
      | (_, some (err, code)) => some ({ status := code, body := err }, c1)
      | (none, none) => none
      | (some info, none) =>
        let data := metaBody info
        some ({ status := 200, body := data }, cacheSet key data c1)

/-- The `/api/channel` route. -/
def api_channel (E : Engine) (r : Req) (c : Cache) : HResult :=
  let cid := pyStrip (argGetD r "id" "")
  let cu := pyStrip (argGetD r "url" "")
  let key := "channel:" ++ (if cid ≠ "" then cid else cu)
  let c1 := if hasLatest r then cacheDelete key c else c
  match (cacheGet c1 key).filter J.truthy with
  | some cached => some ({ status := 200, body := cached }, c1)
  | none =>
    if cid = "" ∧ cu = "" then
      some ({ status := 400,
              body := errBody "Provide \"url\" or \"id\" parameter for channel" }, c1)
    else
      match E.ydlMeta (if cid ≠ "" then cid else cu) with
      | .error m => some ({ status := 500, body := errBody m }, c1)
      | .ok none => some ({ status := 500, body := errBody noneAttrMsg }, c1)
      | .ok (some info) =>
        let data : J := .obj [("id", info.id), ("name", info.uploader),
          ("url", info.webpage_url), ("description", info.description),
          ("subscriber_count", info.subscriber_count),
          ("video_count", info.channel_follower_count.orElse info.video_count),
          ("thumbnails", info.thumbnails)]
        some ({ status := 200, body := data }, cacheSet key data c1)

/-- The `/api/playlist` route. -/
def api_playlist (E : Engine) (r : Req) (c : Cache) : HResult :=
  let pid := pyStrip (argGetD r "id" "")
  let pu := pyStrip (argGetD r "url" "")
  let key := "playlist:" ++ (if pid ≠ "" then pid else pu)
  let c1 := if hasLatest r then cacheDelete key c else c
  match (cacheGet c1 key).filter J.truthy with
  | some cached => some ({ status := 200, body := cached }, c1)
  | none =>
    if pid = "" ∧ pu = "" then
      some ({ status := 400,
              body := errBody "Provide \"url\" or \"id\" parameter for playlist" }, c1)
    else
      match E.ydlFull (if pid ≠ "" then pid else pu) with
      | .error m => some ({ status := 500, body := errBody m }, c1)
      | .ok none => some ({ status := 500, body := errBody noneAttrMsg }, c1)
      | .ok (some info) =>
        let videos : List J := info.entries.map (fun e =>
          .obj [("id", e.id), ("title", e.title), ("url", e.webpage_url),
                ("duration", e.duration)])
        let data : J := .obj [("id", info.id), ("title", info.title),
          ("url", info.webpage_url), ("item_count", info.playlist_count),
          ("videos", .arr videos)]
        some ({ status := 200, body := data }, cacheSet key data c1)

/-- The shared shape of `api_instagram`, `api_twitter`, `api_tiktok` and
`api_facebook` (four copy-paste handlers in the source that differ only
in the key namespace and the error-message wording). -/
def social_handler (keyNamespace errName : String) (E : Engine) (r : Req)
    (c : Cache) : HResult :=
  let u := pyStrip (argGetD r "url" "")
  let key := keyNamespace ++ ":" ++ u
  let c1 := if hasLatest r then cacheDelete key c else c
  match (cacheGet c1 key).filter J.truthy with
  | some cached => some ({ status := 200, body := cached }, c1)
  | none =>
    if u = "" then
      some ({ status := 400,
              body := errBody ("Provide \"url\" parameter for " ++ errName) }, c1)
    else
      match E.ydlMeta u with
      | .error m => some ({ status := 500, body := errBody m }, c1)
      | .ok oinfo =>
        -- the raw result is cached and returned verbatim; Python `None`
        -- is cached as JSON null (indistinguishable from a miss on read)
        let body : J := match oinfo with
          | none => J.null
          | some info => info.toJ
        some ({ status := 200, body := body }, cacheSet key body c1)

def api_instagram : Engine → Req → Cache → HResult :=
  social_handler "instagram" "Instagram"

def api_twitter : Engine → Req → Cache → HResult :=
  social_handler "twitter" "Twitter"

def api_tiktok : Engine → Req → Cache → HResult :=
  social_handler "tiktok" "TikTok"

def api_facebook : Engine → Req → Cache → HResult :=
  social_handler "facebook" "Facebook"

/-- The `/download` route.  Everything is wrapped in a try/except, so it
never crashes. -/
def api_download (E : Engine) (r : Req) (c : Cache) : HResult :=
  let url := argGet r "url"
  let search := argGet r "search"
  if !(optTruthy url || optTruthy search) then
    some ({ status := 400, body := errBody "Provide \"url\" or \"search\" parameter" }, c)
  else
    match extract_info E url search .full with
    | (_, some (err, code)) => some ({ status := code, body := err }, c)
    | (none, none) =>
      some ({ status := 500, body := errBody "Failed to extract video information" }, c)
    | (some info, none) =>
      match build_formats_list info with
      | [] =>
        some ({ status := 404,
                body := .obj [("error", .s "No download formats available"),
                              ("formats", .arr [])] }, c)
      | fmts =>
        some ({ status := 200,
                body := .obj [("formats", .arr (fmts.map FmtEntry.toJ)),
                  ("title", info.title), ("duration", info.duration),
                  ("thumbnail", info.thumbnail)] }, c)

/-- Whether a built format entry is audio-capable
(`f["kind"] in ("audio-only", "progressive")`). -/
def audioCapable (f : FmtEntry) : Bool :=
  decide (f.kind = "audio-only") || decide (f.kind = "progressive")

/-- Whether a built format entry is video-capable
(`f["kind"] in ("video-only", "progressive")`). -/
def videoCapable (f : FmtEntry) : Bool :=
  decide (f.kind = "video-only") || decide (f.kind = "progressive")

/-- Descending comparison by the sort key `x.get("abr", 0)` used by
`api_audio` (the key defaults to `0` only for entries whose `abr` value
is absent, which the sort rejects: see `sortAudio`). -/
def abrGe (a b : FmtEntry) : Prop := b.abr.getD 0 ≤ a.abr.getD 0

instance : DecidableRel abrGe :=
  fun a b => inferInstanceAs (Decidable (b.abr.getD 0 ≤ a.abr.getD 0))

instance : IsTotal FmtEntry abrGe := ⟨fun a b => le_total (b.abr.getD 0) (a.abr.getD 0)⟩

instance : IsTrans FmtEntry abrGe := ⟨fun _ _ _ hab hbc => le_trans hbc hab⟩

/-- Python `audio_formats.sort(key=lambda x: x.get("abr", 0), reverse=True)`.
The built dicts always contain the `abr` key, so `x.get("abr", 0)`
returns the stored value: `None` when the source format had no bitrate.
The CPython sort compares every element of a list of length at least two
with some other element, and any comparison involving `None` raises
`TypeError`; `none` models that raise.  Otherwise the result is the
stable descending sort (the output of a stable sort is unique, so the
insertion sort below equals the timsort result). -/
def sortAudio (l : List FmtEntry) : Option (List FmtEntry) :=
  if l.length ≥ 2 ∧ l.any (fun f => f.abr.isNone) then none
  else some (l.insertionSort abrGe)

/-- Python `audio_formats[0]["url"] if audio_formats else None`. -/
def bestAudioUrl : List FmtEntry → J
  | [] => J.null
  | f :: _ => .s f.url

/-- The `/api/audio` route.  Everything is wrapped in a try/except, so
it never crashes; a `TypeError` from sorting is reported as 500. -/
def api_audio (E : Engine) (r : Req) (c : Cache) : HResult :=
  let url := argGet r "url"
  let search := argGet r "search"
  if !(optTruthy url || optTruthy search) then
    some ({ status := 400, body := errBody "Provide \"url\" or \"search\" parameter" }, c)
  else
    match extract_info E url search .full with
    | (_, some (err, code)) => some ({ status := code, body := err }, c)
    | (none, none) =>
      some ({ status := 500, body := errBody "Failed to extract video information" }, c)
    | (some info, none) =>
      let audio_formats := (build_formats_list info).filter audioCapable
      match audio_formats with
      | [] =>
        some ({ status := 404,
                body := .obj [("error", .s "No audio formats available"),
                              ("audio_formats", .arr [])] }, c)
      | af =>
        match sortAudio af with
        | none =>
          some ({ status := 500,
                  body := errBody "Internal server error: unsupported comparison with NoneType" }, c)
        | some sortedAf =>
          some ({ status := 200,
                  body := .obj [("audio_formats", .arr (sortedAf.map FmtEntry.toJ)),
                    ("title", info.title), ("duration", info.duration),
                    ("thumbnail", info.thumbnail),
                    ("best_audio_url", bestAudioUrl sortedAf)] }, c)

/-- The `/api/video` route.  No try/except: a `None` extraction result
crashes (`none`). -/
def api_video (E : Engine) (r : Req) (c : Cache) : HResult :=
  let url := argGet r "url"
  let search := argGet r "search"
  if !(optTruthy url || optTruthy search) then
    some ({ status := 400, body := errBody "Provide \"url\" or \"search\"" }, c)
  else
    match extract_info E url search .full with
    | (_, some (err, code)) => some ({ status := code, body := err }, c)
    | (none, none) => none
    | (some info, none) =>
      some ({ status := 200,
              body := .obj [("video_formats",
                .arr (((build_formats_list info).filter videoCapable).map FmtEntry.toJ))] }, c)

/-- The `/test` route. -/
def test_endpoint (E : Engine) (_r : Req) (c : Cache) : HResult :=
  some ({ status := 200,
          body := .obj [("status", .s "success"),
            ("message", .s "API is working correctly"),
            ("timestamp", .s E.now),
            ("endpoints", .arr [.s "/api/fast-meta", .s "/api/all", .s "/download",
                                .s "/api/audio", .s "/api/video"])] }, c)

/-- The routes of the HTTP surface. -/
inductive Route where
  | home : Route
  | fastMeta : Route
  | all : Route
  | meta : Route
  | channel : Route
  | playlist : Route
  | instagram : Route
  | twitter : Route
  | tiktok : Route
  | facebook : Route
  | download : Route
  | audio : Route
  | video : Route
  | test : Route
  deriving DecidableEq

/-- The handler registered for a route (before the `require_api_key`
decorator). -/
def routeHandler : Route → Engine → Req → Cache → HResult
  | .home => home
  | .fastMeta => api_fast_meta
  | .all => api_all
  | .meta => api_meta
  | .channel => api_channel
  | .playlist => api_playlist
  | .instagram => api_instagram
  | .twitter => api_twitter
  | .tiktok => api_tiktok
  | .facebook => api_facebook
  | .download => api_download
  | .audio => api_audio
  | .video => api_video
  | .test => test_endpoint

/-- The 401 response produced by `require_api_key`. -/
def unauthorized : Resp := { status := 401, body := errBody "Invalid or missing API key" }

/-- A full request dispatch: the `require_api_key` decorator around the
route handler. -/
def dispatch (rt : Route) (E : Engine) (r : Req) (c : Cache) : HResult :=
  if effectiveApiKey r ≠ some API_KEY then some (unauthorized, c)
  else routeHandler rt E r c

/-- The cache key a route derives from a request (`none` for the routes
that do not touch the cache). -/
def cacheKey : Route → Req → Option String
  | .home, _ => some "home"
  | .fastMeta, r =>
    some ("fast_meta:" ++ pyStrip (argGetD r "search" "") ++ ":" ++ pyStrip (argGetD r "url" ""))
  | .meta, r =>
    some ("meta:" ++ pyStrip (argGetD r "search" "") ++ ":" ++ pyStrip (argGetD r "url" ""))
  | .channel, r =>
    some ("channel:" ++ (if pyStrip (argGetD r "id" "") ≠ "" then pyStrip (argGetD r "id" "")
                         else pyStrip (argGetD r "url" "")))
  | .playlist, r =>
    some ("playlist:" ++ (if pyStrip (argGetD r "id" "") ≠ "" then pyStrip (argGetD r "id" "")
                          else pyStrip (argGetD r "url" "")))
  | .instagram, r => some ("instagram" ++ ":" ++ pyStrip (argGetD r "url" ""))
  | .twitter, r => some ("twitter" ++ ":" ++ pyStrip (argGetD r "url" ""))
  | .tiktok, r => some ("tiktok" ++ ":" ++ pyStrip (argGetD r "url" ""))
  | .facebook, r => some ("facebook" ++ ":" ++ pyStrip (argGetD r "url" ""))
  | .all, _ => none
  | .download, _ => none
  | .audio, _ => none
  | .video, _ => none
  | .test, _ => none

/-- The routes that use the response cache. -/
def isCaching : Route → Bool
  | .home => true
  | .fastMeta => true
  | .meta => true
  | .channel => true
  | .playlist => true
  | .instagram => true
  | .twitter => true
  | .tiktok => true
  | .facebook => true
  | _ => false

/-! ### Basic cache lemmas -/

theorem cacheGet_set_same (k : String) (v : J) (c : Cache) :
    cacheGet (cacheSet k v c) k = some v := by
  simp [cacheGet, cacheSet]

theorem cacheGet_set_ne (k b : String) (v : J) (c : Cache) (h : b ≠ k) :
    cacheGet (cacheSet k v c) b = cacheGet c b := by
  simp [cacheGet, cacheSet, h]

theorem cacheGet_delete_same (k : String) (c : Cache) :
    cacheGet (cacheDelete k c) k = none := by
  simp [cacheGet, cacheDelete]

theorem cacheGet_delete_ne (k b : String) (c : Cache) (h : b ≠ k) :
    cacheGet (cacheDelete k c) b = cacheGet c b := by
  simp [cacheGet, cacheDelete, h]

theorem cacheDelete_delete (k : String) (c : Cache) :
    cacheDelete k (cacheDelete k c) = cacheDelete k c := by
  funext x
  by_cases h : x = k <;> simp [cacheDelete, h]

/-! ### Claim C1: `to_iso_duration` -/

/-- Claim C1 (counterexample): the claim says every malformed input maps
to "PT0S", but the two-field input "1:a" makes `int('a')` raise a
`ValueError` that propagates out of `to_iso_duration` (modelled as
`none`), so no string at all is returned. -/
theorem C1_counterexample :
    to_iso_duration "1:a" = none ∧ to_iso_duration "1:a" ≠ some "PT0S" := by
  exact ⟨rfl, fun h => Option.noConfusion h⟩

/-- Claim C1 (amended): for "H:M:S" / "M:S" inputs with numeric
components the ISO form is produced with the hour part omitted when the
hour is zero; a single all-digit field yields "PT(S)S"; the empty string,
a single non-digit field, and four or more fields yield "PT0S"; but a
two- or three-field input with a non-numeric component raises an
exception instead of returning "PT0S". -/
theorem C1_amended (str sh sm ss : String) (hv mv sv : Int) :
    (pySplitColon str = [sh, sm, ss] → pyToInt sh = some hv → pyToInt sm = some mv →
      pyToInt ss = some sv →
      to_iso_duration str =
        some ((if hv ≠ 0 then "PT" ++ toString hv ++ "H" else "PT") ++
          toString mv ++ "M" ++ toString sv ++ "S")) ∧
    (pySplitColon str = [sm, ss] → pyToInt sm = some mv → pyToInt ss = some sv →
      to_iso_duration str = some ("PT" ++ toString mv ++ "M" ++ toString sv ++ "S")) ∧
    (pySplitColon str = [sh] → pyIsDigit sh = true → pyToInt sh = some sv →
      to_iso_duration str = some ("PT" ++ toString sv ++ "S")) ∧
    (pySplitColon str = [sh] → pyIsDigit sh = false →
      to_iso_duration str = some "PT0S") ∧
    (pySplitColon str = [sh, sm] → pyToInt sh = none → to_iso_duration str = none) ∧
    (pySplitColon str = [sh, sm, ss] → pyToInt sh = some hv → pyToInt sm = none →
      to_iso_duration str = none) ∧
    (4 ≤ (pySplitColon str).length → to_iso_duration str = some "PT0S") := by
  constructor
  · intro hsp hh hm hs
    have hne : str ≠ "" := by
      intro h0
      subst h0
      simp [pySplitColon, pySplitColonAux] at hsp
    simp [to_iso_duration, hne, hsp, hh, hm, hs]
  constructor
  · intro hsp hm hs
    have hne : str ≠ "" := by
      intro h0
      subst h0
      simp [pySplitColon, pySplitColonAux] at hsp
    simp [to_iso_duration, hne, hsp, hm, hs]
  constructor
  · intro hsp hdig hval
    have hne : str ≠ "" := by
      intro h0
      subst h0
      simp [pySplitColon, pySplitColonAux] at hsp
      subst hsp
      simp [pyIsDigit] at hdig
    simp [to_iso_duration, hne, hsp, hdig, hval]
  constructor
  · intro hsp hdig
    by_cases hne : str = ""
    · subst hne
      simp [to_iso_duration]
    · simp [to_iso_duration, hne, hsp, hdig]
  constructor
  · intro hsp hh
    have hne : str ≠ "" := by
      intro h0
      subst h0
      simp [pySplitColon, pySplitColonAux] at hsp
    simp [to_iso_duration, hne, hsp, hh]
  constructor
  · intro hsp hh hm
    have hne : str ≠ "" := by
      intro h0
      subst h0
      simp [pySplitColon, pySplitColonAux] at hsp
    simp [to_iso_duration, hne, hsp, hh, hm]
  · intro hlen
    have hne : str ≠ "" := by
      intro h0
      subst h0
      simp [pySplitColon, pySplitColonAux] at hlen
    rcases hq : pySplitColon str with _ | ⟨a, _ | ⟨b, _ | ⟨d, _ | e⟩⟩⟩ <;>
        rw [hq] at hlen <;> simp at hlen
    simp [to_iso_duration, hne, hq]

/-- Claim C1 (witness for the amended theorem). -/
theorem C1_amended_witness :
    to_iso_duration "1:2:3" = some "PT1H2M3S" ∧
    to_iso_duration "0:2:3" = some "PT2M3S" ∧
    to_iso_duration "4:5" = some "PT4M5S" ∧
    to_iso_duration "007" = some "PT7S" ∧
    to_iso_duration "abc" = some "PT0S" ∧
    to_iso_duration "x:y" = none ∧
    to_iso_duration "1:2:3:4" = some "PT0S" := by
  refine ⟨?_, ?_, ?_, ?_, ?_, ?_, ?_⟩
  · exact (C1_amended "1:2:3" "1" "2" "3" 1 2 3).1 (by decide) (by decide) (by decide) (by decide)
  · exact (C1_amended "0:2:3" "0" "2" "3" 0 2 3).1 (by decide) (by decide) (by decide) (by decide)
  · exact (C1_amended "4:5" "" "4" "5" 0 4 5).2.1 (by decide) (by decide) (by decide)
  · exact (C1_amended "007" "007" "" "" 0 0 7).2.2.1 (by decide) (by decide) (by decide)
  · exact (C1_amended "abc" "abc" "" "" 0 0 0).2.2.2.1 (by decide) (by decide)
  · exact (C1_amended "x:y" "x" "y" "" 0 0 0).2.2.2.2.1 (by decide) (by decide)
  · exact (C1_amended "1:2:3:4" "" "" "" 0 0 0).2.2.2.2.2.2 (by decide)

/-! ### Claim C2: `build_formats_list` classification -/

/-- The notion of a codec being present used by the claim: the format
dictionary holds an actual codec name for the field (the key exists and
its value is not the sentinel string "none"). -/
def specCodecPresent (c : Option String) : Prop := ∃ v, c = some v ∧ v ≠ "none"

/-- A format dictionary with a fetch URL but no codec fields at all. -/
def fmtNoCodecs : Fmt := { url := some "http://u" }

/-- Claim C2 (counterexample): a format dictionary lacking both codec
fields has no video codec and no audio codec present, yet
`build_formats_list` classifies it as `progressive` (the code tests
`f.get("vcodec") != "none"`, and an absent field compares unequal to
the string "none"). -/
theorem C2_counterexample :
    (build_formats_list { formats := [fmtNoCodecs] }).map (fun e => e.kind) =
      ["progressive"] ∧
    ¬ specCodecPresent fmtNoCodecs.vcodec ∧ ¬ specCodecPresent fmtNoCodecs.acodec := by
  refine ⟨rfl, ?_, ?_⟩ <;> rintro ⟨v, hv, -⟩ <;> cases hv

/-- Claim C2 (amended): an entry is classified `progressive` iff neither
codec field equals the sentinel string "none" (an absent codec field
counts as codec-present), `video-only` iff only the audio field is the
sentinel, `audio-only` iff only the video field is the sentinel; entries
whose fetch URL is missing or empty, and entries with both fields equal
to the sentinel, are excluded from the format list. -/
theorem C2_amended (f : Fmt) :
    (buildFmtEntry f = none ↔
      (optTruthy f.url = false ∨ (f.vcodec = some "none" ∧ f.acodec = some "none"))) ∧
    (∀ e, buildFmtEntry f = some e →
      ((e.kind = "progressive" ↔ (f.vcodec ≠ some "none" ∧ f.acodec ≠ some "none")) ∧
       (e.kind = "video-only" ↔ (f.vcodec ≠ some "none" ∧ f.acodec = some "none")) ∧
       (e.kind = "audio-only" ↔ (f.vcodec = some "none" ∧ f.acodec ≠ some "none")))) ∧
    (∀ info : Info, build_formats_list info = info.formats.filterMap buildFmtEntry) := by
  refine ⟨?_, ?_, fun _ => rfl⟩
  · rcases hurl : f.url with - | u
    · simp [buildFmtEntry, hurl, optTruthy]
    · by_cases hu : u = ""
      · subst hu
        simp [buildFmtEntry, hurl, optTruthy]
      · by_cases hv : f.vcodec = some "none" <;> by_cases ha : f.acodec = some "none" <;>
          simp [buildFmtEntry, hurl, optTruthy, hv, ha]
  · intro e he
    rcases hurl : f.url with - | u
    · simp [buildFmtEntry, hurl] at he
    · by_cases hu : u = ""
      · subst hu
        simp [buildFmtEntry, hurl] at he
      · by_cases hv : f.vcodec = some "none"
        · by_cases ha : f.acodec = some "none"
          · simp [buildFmtEntry, hurl, hu, hv, ha] at he
          · simp [buildFmtEntry, hurl, hu, hv, ha] at he
            subst he
            simp [hv, ha]
        · by_cases ha : f.acodec = some "none"
          · simp [buildFmtEntry, hurl, hu, hv, ha] at he
            subst he
            simp [hv, ha]
          · simp [buildFmtEntry, hurl, hu, hv, ha] at he
            subst he
            simp [hv, ha]

/-- A format dictionary holding a real video codec and the audio
sentinel (a typical video-only stream). -/
def fmtW : Fmt := { url := some "http://u", vcodec := some "avc1", acodec := some "none" }

/-- The entry `buildFmtEntry` produces for `fmtW`. -/
def eW : FmtEntry :=
  { format_id := .null, ext := .null, kind := "video-only", filesize_bytes := 0,
    filesize := "0 B", width := none, height := none, fps := none, abr := none,
    asr := none, url := "http://u" }

/-- Claim C2 (witness for the amended theorem). -/
theorem C2_amended_witness :
    eW.kind = "video-only" ↔ (fmtW.vcodec ≠ some "none" ∧ fmtW.acodec = some "none") :=
  ((C2_amended fmtW).2.1 eW rfl).2.1

/-! ### Claim C4: 401 on a missing or wrong API key -/

/-- Claim C4: for every route and every request whose effective supplied
key (query parameter `api_key`, falling back to the `X-API-Key` header)
is missing or differs from the configured secret, the response is the
401 unauthorized error body, regardless of all other parameters, the
cache, and the state of the external world. -/
theorem C4_theorem (rt : Route) (E : Engine) (r : Req) (c : Cache)
    (h : effectiveApiKey r ≠ some API_KEY) :
    dispatch rt E r c = some (unauthorized, c) ∧ unauthorized.status = 401 ∧
      hasErrorKey unauthorized.body = true := by
  refine ⟨?_, rfl, rfl⟩
  unfold dispatch
  rw [if_pos h]

/-- A concrete engine (every external call raises). -/
def engErr : Engine :=
  { ydlFull := fun _ => .error "network down", ydlMeta := fun _ => .error "network down",
    ytSearch := fun _ => .error "network down", now := "2025-01-01" }

/-- Claim C4 (witness): a keyless request to `/api/all` is rejected. -/
theorem C4_witness :
    dispatch .all engErr { args := [("url", "https://youtu.be/x")], headers := [] }
        emptyCache = some (unauthorized, emptyCache) ∧
      unauthorized.status = 401 ∧ hasErrorKey unauthorized.body = true :=
  C4_theorem .all engErr { args := [("url", "https://youtu.be/x")], headers := [] }
    emptyCache (by decide)

/-! ### Claim C9: failed auth short-circuits before any work -/

/-- Claim C9: when the supplied key fails the exact match, the outcome
does not depend on the external engine at all (no extraction call can
influence it) and the cache is returned unchanged. -/
theorem C9_theorem (rt : Route) (E1 E2 : Engine) (r : Req) (c : Cache)
    (h : effectiveApiKey r ≠ some API_KEY) :
    dispatch rt E1 r c = dispatch rt E2 r c ∧
      ∀ resp c2, dispatch rt E1 r c = some (resp, c2) → c2 = c := by
  unfold dispatch
  rw [if_pos h, if_pos h]
  refine ⟨rfl, fun resp c2 hh => ?_⟩
  injection hh with hh2
  exact congrArg Prod.snd hh2.symm

/-- A second concrete engine, giving different answers than `engErr`. -/
def engOk : Engine :=
  { ydlFull := fun _ => .ok (some { title := .s "video A" }),
    ydlMeta := fun _ => .ok (some { title := .s "video A" }),
    ytSearch := fun _ => .ok [], now := "2025-06-30" }

/-- Claim C9 (witness). -/
theorem C9_witness :
    dispatch .meta engErr { args := [("api_key", "wrong")], headers := [] } emptyCache =
      dispatch .meta engOk { args := [("api_key", "wrong")], headers := [] } emptyCache ∧
    ∀ resp c2,
      dispatch .meta engErr { args := [("api_key", "wrong")], headers := [] } emptyCache =
        some (resp, c2) → c2 = emptyCache :=
  C9_theorem .meta engErr engOk { args := [("api_key", "wrong")], headers := [] }
    emptyCache (by decide)

/-! ### Claim C7: search resolution and the 404 cases of `extract_info` -/

/-- A search result whose top entry has a null `id`. -/
def infoNoId : Info := { entries := [{ id := J.null }] }

/-- An engine whose search succeeds with one entry lacking an id. -/
def engNoId : Engine :=
  { ydlFull := fun s => if s = "ytsearch:q0" then .ok (some infoNoId) else .error "x",
    ydlMeta := fun _ => .error "x", ytSearch := fun _ => .error "x", now := "" }

/-- Claim C7 (counterexample): `extract_info` also returns 404 when the
search result has entries but the top entry has no usable id, so 404 is
not produced only in the no-entries case. -/
theorem C7_counterexample :
    extract_info engNoId none (some "q0") .full =
      (none, some (errBody "Invalid video ID from search", 404)) ∧
    infoNoId.entries ≠ [] := by
  exact ⟨rfl, by simp [infoNoId]⟩

/-- Claim C7 (amended): for a search query, `extract_info` first searches
(`ytsearch:`), then re-resolves the top result id as a direct watch URL;
an empty entries list yields 404 "No search results"; a top entry with a
falsy id yields 404 "Invalid video ID from search"; and every 404 the
function produces arises from one of these two search cases. -/
theorem C7_amended (E : Engine) (url : Option String) (sq : String) (opts : OptsKind)
    (res : Info) :
    (sq ≠ "" → engineOf opts E ("ytsearch:" ++ sq) = .ok (some res) →
      ∀ e rest, res.entries = e :: rest → e.id.truthy = true →
        extract_info E url (some sq) opts =
          (match engineOf opts E ("https://www.youtube.com/watch?v=" ++ e.id.pyStr) with
           | .error m => (none, some (errBody ("Extraction failed: " ++ m), 500))
           | .ok info => (info, none))) ∧
    (sq ≠ "" → engineOf opts E ("ytsearch:" ++ sq) = .ok (some res) → res.entries = [] →
      extract_info E url (some sq) opts = (none, some (errBody "No search results", 404))) ∧
    (sq ≠ "" → engineOf opts E ("ytsearch:" ++ sq) = .ok (some res) →
      ∀ e rest, res.entries = e :: rest → e.id.truthy = false →
        extract_info E url (some sq) opts =
          (none, some (errBody "Invalid video ID from search", 404))) ∧
    (∀ (usq : Option String) (b : J),
      (extract_info E url usq opts).2 = some (b, 404) →
        ∃ q2 res2, usq = some q2 ∧ q2 ≠ "" ∧
          engineOf opts E ("ytsearch:" ++ q2) = .ok (some res2) ∧
          (res2.entries = [] ∨
            ∃ e2 rest2, res2.entries = e2 :: rest2 ∧ e2.id.truthy = false)) := by
  refine ⟨?_, ?_, ?_, ?_⟩
  · intro hsq hS e rest hEn hid
    simp only [extract_info, hS, hEn, hid, if_true]
    rw [if_pos hsq]
  · intro hsq hS hEn
    simp only [extract_info, hS, hEn]
    rw [if_pos hsq]
  · intro hsq hS e rest hEn hid
    simp only [extract_info, hS, hEn, hid, Bool.false_eq_true, if_false]
    rw [if_pos hsq]
  · intro usq b h404
    rcases usq with - | q2
    · rcases url with - | u
      · simp [extract_info] at h404
      · rcases hE : engineOf opts E u with m | oinfo <;>
          simp [extract_info, hE] at h404
    · by_cases hq : q2 = ""
      · subst hq
        rcases url with - | u
        · simp [extract_info] at h404
        · rcases hE : engineOf opts E u with m | oinfo <;>
            simp [extract_info, hE] at h404
      · rcases hS : engineOf opts E ("ytsearch:" ++ q2) with m | - | res2
        · simp [extract_info, hq, hS] at h404
        · simp [extract_info, hq, hS] at h404
        · rcases hEn : res2.entries with - | ⟨e2, rest2⟩
          · exact ⟨q2, res2, rfl, hq, hS, .inl hEn⟩
          · by_cases hid : e2.id.truthy = true
            · rcases hW : engineOf opts E
                  ("https://www.youtube.com/watch?v=" ++ e2.id.pyStr) with m | oinfo <;>
                simp [extract_info, hq, hS, hEn, hid, hW] at h404
            · exact ⟨q2, res2, rfl, hq, hS,
                .inr ⟨e2, rest2, hEn, by simpa using hid⟩⟩

/-- A search result with one well-formed entry. -/
def infoSearchW : Info := { entries := [{ id := J.s "VID1" }] }

/-- The full metadata obtained by re-resolving the watch URL. -/
def infoFullW : Info := { title := J.s "resolved" }

/-- An engine serving a search result and the follow-up watch URL. -/
def engSearchW : Engine :=
  { ydlFull := fun s =>
      if s = "ytsearch:q0" then .ok (some infoSearchW)
      else if s = "https://www.youtube.com/watch?v=VID1" then .ok (some infoFullW)
      else .error "x",
    ydlMeta := fun _ => .error "x", ytSearch := fun _ => .error "x", now := "" }

/-- Claim C7 (witness for the amended theorem): the search is re-resolved
through the watch URL of the top entry id. -/
theorem C7_amended_witness :
    extract_info engSearchW none (some "q0") .full = (some infoFullW, none) :=
  (C7_amended engSearchW none "q0" .full infoSearchW).1 (by decide) rfl
    { id := J.s "VID1" } [] rfl rfl

/-! ### Claim C6: exception handling per route -/

/-- An extraction result whose single related entry carries an
explicitly empty thumbnail list. -/
def infoEmptyThumbs : Info := { related := [{ thumbnails := some ([] : List Thumb) }] }

/-- An engine returning that extraction result for every URL. -/
def engEmptyThumbs : Engine :=
  { ydlFull := fun _ => .ok (some infoEmptyThumbs),
    ydlMeta := fun _ => .ok (some infoEmptyThumbs),
    ytSearch := fun _ => .error "x", now := "" }

/-- An authorized request for a direct URL. -/
def reqUrlW : Req := { args := [("api_key", "zefron@123"), ("url", "U")], headers := [] }

/-- Claim C6 (counterexample): `/api/all` has no outermost exception
handler; building the suggestions list for a related entry whose
thumbnail list is empty raises an uncaught `IndexError`
(`rel.get("thumbnails", [...])[0]`), so the route crashes (`none`)
instead of returning a JSON error body. -/
theorem C6_counterexample :
    dispatch .all engEmptyThumbs reqUrlW emptyCache = none := rfl

/-- The routes whose whole body is guarded by a try/except (or that
cannot raise at all); `/api/all`, `/api/meta` and `/api/video` are not
among them. -/
def crashSafe : Route → Bool
  | .all => false
  | .meta => false
  | .video => false
  | _ => true

theorem home_total (E : Engine) (r : Req) (c : Cache) : (home E r c).isSome = true := by
  unfold home
  dsimp only
  split <;> rfl

theorem api_fast_meta_total (E : Engine) (r : Req) (c : Cache) :
    (api_fast_meta E r c).isSome = true := by
  unfold api_fast_meta
  dsimp only
  split
  · rfl
  · split
    · rfl
    · split <;> rfl

theorem api_channel_total (E : Engine) (r : Req) (c : Cache) :
    (api_channel E r c).isSome = true := by
  unfold api_channel
  dsimp only
  split
  · rfl
  · split
    · rfl
    · split <;> rfl

theorem api_playlist_total (E : Engine) (r : Req) (c : Cache) :
    (api_playlist E r c).isSome = true := by
  unfold api_playlist
  dsimp only
  split
  · rfl
  · split
    · rfl
    · split <;> rfl

theorem social_handler_total (ns en : String) (E : Engine) (r : Req) (c : Cache) :
    (social_handler ns en E r c).isSome = true := by
  unfold social_handler
  dsimp only
  split
  · rfl
  · split
    · rfl
    · split <;> rfl

theorem api_download_total (E : Engine) (r : Req) (c : Cache) :
    (api_download E r c).isSome = true := by
  unfold api_download
  dsimp only
  split
  · rfl
  · split <;> first | rfl | (split <;> rfl)

theorem api_audio_total (E : Engine) (r : Req) (c : Cache) :
    (api_audio E r c).isSome = true := by
  unfold api_audio
  dsimp only
  split
  · rfl
  · split <;> first | rfl | (split <;> first | rfl | (split <;> rfl))

/-- Claim C6 (amended): the routes wrapped in a try/except (fast-meta,
channel, playlist, the four social routes, download, audio) and the
routes that cannot raise (home, test) always return a response; but
`/api/all`, `/api/meta` and `/api/video` have no outermost handler, so
an exception raised while building the response (or a `None` extraction
result) escapes as an unhandled crash — only exceptions raised inside
`extract_info` are caught there. -/
theorem C6_amended (rt : Route) (h : crashSafe rt = true) (E : Engine) (r : Req)
    (c : Cache) : (dispatch rt E r c).isSome = true := by
  unfold dispatch
  split
  · rfl
  · cases rt
    case home => exact home_total E r c
    case fastMeta => exact api_fast_meta_total E r c
    case all => simp [crashSafe] at h
    case meta => simp [crashSafe] at h
    case channel => exact api_channel_total E r c
    case playlist => exact api_playlist_total E r c
    case instagram => exact social_handler_total "instagram" "Instagram" E r c
    case twitter => exact social_handler_total "twitter" "Twitter" E r c
    case tiktok => exact social_handler_total "tiktok" "TikTok" E r c
    case facebook => exact social_handler_total "facebook" "Facebook" E r c
    case download => exact api_download_total E r c
    case audio => exact api_audio_total E r c
    case video => simp [crashSafe] at h
    case test => rfl

/-- Claim C6 (witness for the amended theorem): `/download` on the same
engine and request that crash `/api/all` still returns a response. -/
theorem C6_amended_witness :
    (dispatch .download engEmptyThumbs reqUrlW emptyCache).isSome = true :=
  C6_amended .download rfl engEmptyThumbs reqUrlW emptyCache

/-! ### Claim C8: `/api/audio` returns audio-capable formats sorted by
descending bitrate -/

/-- The list produced by the modelled sort is sorted by descending
`abr` and is a permutation of its input. -/
theorem sortAudio_sorted_perm (l sortedL : List FmtEntry)
    (h : sortAudio l = some sortedL) :
    List.Sorted abrGe sortedL ∧ sortedL.Perm l ∧
      ∀ e, e ∈ sortedL ↔ e ∈ l := by
  unfold sortAudio at h
  split at h
  · cases h
  · injection h with h2
    subst h2
    refine ⟨List.sorted_insertionSort abrGe l, List.perm_insertionSort abrGe l, ?_⟩
    intro e
    exact (List.perm_insertionSort abrGe l).mem_iff

/-- Claim C8: every successful (status 200) `/api/audio` response
carries exactly the audio-capable entries (`audio-only` or
`progressive`) of the format list of the extraction result, as a list
that is a permutation of that filtered list and is sorted by descending
audio bitrate. -/
theorem C8_theorem (E : Engine) (r : Req) (c : Cache) (info : Info)
    (sortedAf : List FmtEntry)
    (hauth : effectiveApiKey r = some API_KEY)
    (hparams : (optTruthy (argGet r "url") || optTruthy (argGet r "search")) = true)
    (hext : extract_info E (argGet r "url") (argGet r "search") .full = (some info, none))
    (hsort : sortAudio ((build_formats_list info).filter audioCapable) = some sortedAf) :
    (dispatch .audio E r c =
      some ({ status := 200,
              body := .obj [("audio_formats", .arr (sortedAf.map FmtEntry.toJ)),
                ("title", info.title), ("duration", info.duration),
                ("thumbnail", info.thumbnail),
                ("best_audio_url", bestAudioUrl sortedAf)] }, c) ∨
    ((build_formats_list info).filter audioCapable = [] ∧
      dispatch .audio E r c =
        some ({ status := 404,
                body := .obj [("error", .s "No audio formats available"),
                              ("audio_formats", .arr [])] }, c))) ∧
    List.Sorted abrGe sortedAf ∧
    sortedAf.Perm ((build_formats_list info).filter audioCapable) ∧
    (∀ e, e ∈ sortedAf ↔ e ∈ (build_formats_list info).filter audioCapable) := by
  obtain ⟨hsorted, hperm, hmem⟩ := sortAudio_sorted_perm _ _ hsort
  refine ⟨?_, hsorted, hperm, hmem⟩
  have hkey : ¬ effectiveApiKey r ≠ some API_KEY := by simp [hauth]
  have hroute : dispatch .audio E r c = api_audio E r c := by
    unfold dispatch
    rw [if_neg hkey]
    rfl
  rw [hroute]
  unfold api_audio
  dsimp only
  rw [hparams, if_neg (by simp), hext]
  dsimp only
  rcases haf : (build_formats_list info).filter audioCapable with - | ⟨f0, rest⟩
  · right
    exact ⟨rfl, rfl⟩
  · left
    rw [haf] at hsort
    simp only [hsort]

/-- Extraction result with two audio formats (bitrates 48 and 127) and a
video-only one. -/
def infoAudioW : Info :=
  { title := .s "t",
    formats := [
      { format_id := .s "a1", vcodec := some "none", acodec := some "opus",
        url := some "http://a1", abr := some 48 },
      { format_id := .s "v1", vcodec := some "vp9", acodec := some "none",
        url := some "http://v1" },
      { format_id := .s "a2", vcodec := some "none", acodec := some "mp4a",
        url := some "http://a2", abr := some 127 }] }

def engAudioW : Engine :=
  { ydlFull := fun _ => .ok (some infoAudioW), ydlMeta := fun _ => .error "x",
    ytSearch := fun _ => .error "x", now := "" }

/-- Claim C8 (witness): on a concrete request the 200 branch of
`C8_theorem` fires and the returned list is the bitrate-descending
permutation of the audio-capable entries. -/
theorem C8_witness :
    (dispatch .audio engAudioW reqUrlW emptyCache =
      some ({ status := 200,
              body := .obj [("audio_formats", .arr
                  ((((build_formats_list infoAudioW).filter audioCapable).insertionSort
                    abrGe).map FmtEntry.toJ)),
                ("title", infoAudioW.title), ("duration", infoAudioW.duration),
                ("thumbnail", infoAudioW.thumbnail),
                ("best_audio_url", bestAudioUrl (((build_formats_list infoAudioW).filter
                    audioCapable).insertionSort abrGe))] }, emptyCache) ∨
     ((build_formats_list infoAudioW).filter audioCapable = [] ∧
       dispatch .audio engAudioW reqUrlW emptyCache =
         some ({ status := 404,
                 body := .obj [("error", .s "No audio formats available"),
                               ("audio_formats", .arr [])] }, emptyCache))) ∧
    (((build_formats_list infoAudioW).filter audioCapable).insertionSort abrGe).map
        (fun e => e.format_id) = [.s "a2", .s "a1"] :=
  ⟨(C8_theorem engAudioW reqUrlW emptyCache infoAudioW
      (((build_formats_list infoAudioW).filter audioCapable).insertionSort abrGe)
      rfl rfl rfl rfl).1,
    rfl⟩

/-! ### Cache-key helpers and key-space disjointness -/

def fastMetaKeyOf (r : Req) : String :=
  "fast_meta:" ++ pyStrip (argGetD r "search" "") ++ ":" ++ pyStrip (argGetD r "url" "")

def metaKeyOf (r : Req) : String :=
  "meta:" ++ pyStrip (argGetD r "search" "") ++ ":" ++ pyStrip (argGetD r "url" "")

def channelKeyOf (r : Req) : String :=
  "channel:" ++ (if pyStrip (argGetD r "id" "") ≠ "" then pyStrip (argGetD r "id" "")
                 else pyStrip (argGetD r "url" ""))

def playlistKeyOf (r : Req) : String :=
  "playlist:" ++ (if pyStrip (argGetD r "id" "") ≠ "" then pyStrip (argGetD r "id" "")
                  else pyStrip (argGetD r "url" ""))

def socialKeyOf (ns : String) (r : Req) : String :=
  ns ++ ":" ++ pyStrip (argGetD r "url" "")

theorem str_ne_of_head (a b : String) (ca cb : Char) (ha : a.data.head? = some ca)
    (hb : b.data.head? = some cb) (hne : ca ≠ cb) : a ≠ b := by
  intro h
  subst h
  rw [ha] at hb
  exact hne (Option.some.inj hb)

theorem str_ne_of_take3 (a b : String) (la lb : List Char) (ha : a.data.take 3 = la)
    (hb : b.data.take 3 = lb) (hne : la ≠ lb) : a ≠ b := by
  intro h
  subst h
  rw [ha] at hb
  exact hne hb

theorem str_empty_of_length_zero (s : String) (h : s.length = 0) : s = "" := by
  cases s with
  | mk d =>
    cases d with
    | nil => rfl
    | cons a t => simp [String.length] at h

/-- If `a ++ k = a` then `k` is empty. -/
theorem append_eq_self (a k : String) (h : a ++ k = a) : k = "" := by
  have h2 := congrArg String.length h
  rw [String.length_append] at h2
  exact str_empty_of_length_zero k (by omega)

/-- If `a ++ q ++ ":" ++ u = a ++ ":"` then both parameters are empty. -/
theorem key2_eq_empty (a q u : String) (h : a ++ q ++ ":" ++ u = a ++ ":") :
    q = "" ∧ u = "" := by
  have h2 := congrArg String.length h
  rw [String.length_append, String.length_append, String.length_append,
    String.length_append] at h2
  have l1 : (":" : String).length = 1 := rfl
  rw [l1] at h2
  exact ⟨str_empty_of_length_zero q (by omega), str_empty_of_length_zero u (by omega)⟩

theorem optionFilter_eq_some (o : Option J) (v : J)
    (h : Option.filter J.truthy o = some v) : o = some v ∧ v.truthy = true := by
  cases o with
  | none => cases h
  | some w =>
    simp only [Option.filter] at h
    split at h
    · obtain rfl := Option.some.inj h
      next hw => exact ⟨rfl, hw⟩
    · cases h

/-- Cache behaviour of the social-route handler: the cache is unchanged
beyond the optional `latest` delete, except that a 200 response may be
stored under the route key; and a truthy 200 body is always readable
back from the key afterwards. -/
theorem social_handler_spec (ns en : String) (E : Engine) (r : Req) (c : Cache)
    (resp : Resp) (c2 : Cache) (h : social_handler ns en E r c = some (resp, c2)) :
    (c2 = (if hasLatest r then cacheDelete (socialKeyOf ns r) c else c) ∨
      (resp.status = 200 ∧
        c2 = cacheSet (socialKeyOf ns r) resp.body
          (if hasLatest r then cacheDelete (socialKeyOf ns r) c else c))) ∧
    (resp.status = 200 → resp.body.truthy = true →
      cacheGet c2 (socialKeyOf ns r) = some resp.body) := by
  unfold social_handler at h
  dsimp only at h
  split at h
  · next cached heq =>
    obtain ⟨hget, htr⟩ := optionFilter_eq_some _ _ heq
    injection h with h1
    injection h1 with hr hc
    subst hr
    subst hc
    exact ⟨.inl rfl, fun _ _ => hget⟩
  · next heq =>
    split at h
    · injection h with h1
      injection h1 with hr hc
      subst hr
      subst hc
      refine ⟨.inl rfl, fun hs _ => ?_⟩
      simp at hs
    · split at h
      · injection h with h1
        injection h1 with hr hc
        subst hr
        subst hc
        refine ⟨.inl rfl, fun hs _ => ?_⟩
        simp at hs
      · injection h with h1
        injection h1 with hr hc
        subst hr
        subst hc
        exact ⟨.inr ⟨rfl, rfl⟩, fun _ _ => cacheGet_set_same _ _ _⟩

/-- A truthy cached value short-circuits the social-route handler. -/
theorem social_handler_hit (ns en : String) (E : Engine) (r : Req) (c : Cache) (v : J)
    (hl : hasLatest r = false) (hv : v.truthy = true)
    (hget : cacheGet c (socialKeyOf ns r) = some v) :
    social_handler ns en E r c = some ({ status := 200, body := v }, c) := by
  unfold social_handler
  dsimp only
  rw [hl]
  simp only [Bool.false_eq_true, if_false]
  simp only [socialKeyOf] at hget
  rw [hget]
  simp [Option.filter, hv]

theorem home_spec (E : Engine) (r : Req) (c : Cache) (resp : Resp) (c2 : Cache)
    (h : home E r c = some (resp, c2)) :
    (c2 = (if hasLatest r then cacheDelete "home" c else c) ∨
      (resp.status = 200 ∧
        c2 = cacheSet "home" resp.body (if hasLatest r then cacheDelete "home" c else c))) ∧
    (resp.status = 200 → resp.body.truthy = true →
      cacheGet c2 "home" = some resp.body) := by
  unfold home at h
  dsimp only at h
  split at h
  · next cached heq =>
    obtain ⟨hget, htr⟩ := optionFilter_eq_some _ _ heq
    injection h with h1
    injection h1 with hr hc
    subst hr
    subst hc
    exact ⟨.inl rfl, fun _ _ => hget⟩
  · injection h with h1
    injection h1 with hr hc
    subst hr
    subst hc
    exact ⟨.inr ⟨rfl, rfl⟩, fun _ _ => cacheGet_set_same _ _ _⟩

theorem home_hit (E : Engine) (r : Req) (c : Cache) (v : J)
    (hl : hasLatest r = false) (hv : v.truthy = true)
    (hget : cacheGet c "home" = some v) :
    home E r c = some ({ status := 200, body := v }, c) := by
  unfold home
  dsimp only
  rw [hl]
  simp only [Bool.false_eq_true, if_false]
  rw [hget]
  simp [Option.filter, hv]

/-- Whether a fast-meta/meta request carries at least one of the two
parameters after stripping. -/
def dualParamsOk (r : Req) : Prop :=
  ¬(pyStrip (argGetD r "search" "") = "" ∧ pyStrip (argGetD r "url" "") = "")

theorem api_fast_meta_spec (E : Engine) (r : Req) (c : Cache) (resp : Resp) (c2 : Cache)
    (h : api_fast_meta E r c = some (resp, c2)) :
    (c2 = (if hasLatest r then cacheDelete (fastMetaKeyOf r) c else c) ∨
      (resp.status = 200 ∧ dualParamsOk r ∧
        c2 = cacheSet (fastMetaKeyOf r) resp.body
          (if hasLatest r then cacheDelete (fastMetaKeyOf r) c else c))) ∧
    (resp.status = 200 → resp.body.truthy = true →
      cacheGet c2 (fastMetaKeyOf r) = some resp.body) := by
  unfold api_fast_meta at h
  dsimp only at h
  split at h
  · next cached heq =>
    injection h with h1
    injection h1 with hr hc
    subst hr
    subst hc
    exact ⟨.inl rfl, fun _ _ => heq⟩
  · next heq =>
    split at h
    · injection h with h1
      injection h1 with hr hc
      subst hr
      subst hc
      refine ⟨.inl rfl, fun hs _ => ?_⟩
      simp at hs
    · next hok =>
      split at h
      · injection h with h1
        injection h1 with hr hc
        subst hr
        subst hc
        refine ⟨.inl rfl, fun hs _ => ?_⟩
        simp at hs
      · injection h with h1
        injection h1 with hr hc
        subst hr
        subst hc
        refine ⟨.inl rfl, fun hs _ => ?_⟩
        simp at hs
      · injection h with h1
        injection h1 with hr hc
        subst hr
        subst hc
        exact ⟨.inr ⟨rfl, hok, rfl⟩, fun _ _ => cacheGet_set_same _ _ _⟩

theorem api_fast_meta_hit (E : Engine) (r : Req) (c : Cache) (v : J)
    (hl : hasLatest r = false) (_hv : v.truthy = true)
    (hget : cacheGet c (fastMetaKeyOf r) = some v) :
    api_fast_meta E r c = some ({ status := 200, body := v }, c) := by
  unfold api_fast_meta
  dsimp only
  rw [hl]
  simp only [Bool.false_eq_true, if_false]
  simp only [fastMetaKeyOf] at hget
  rw [hget]

/-- The non-200 status codes `extract_info` can attach to an error. -/
theorem extract_info_code (E : Engine) (url sq : Option String) (opts : OptsKind)
    (b : J) (code : Nat) (h : (extract_info E url sq opts).2 = some (b, code)) :
    code = 404 ∨ code = 500 := by
  rcases sq with - | q2
  · rcases url with - | u
    · simp [extract_info] at h
      omega
    · rcases hE : engineOf opts E u with m | oinfo <;> simp [extract_info, hE] at h
      omega
  · by_cases hq : q2 = ""
    · subst hq
      rcases url with - | u
      · simp [extract_info] at h
        omega
      · rcases hE : engineOf opts E u with m | oinfo <;> simp [extract_info, hE] at h
        omega
    · rcases hS : engineOf opts E ("ytsearch:" ++ q2) with m | - | res2
      · simp [extract_info, hq, hS] at h
        omega
      · simp [extract_info, hq, hS] at h
        omega
      · rcases hEn : res2.entries with - | ⟨e2, rest2⟩
        · simp [extract_info, hq, hS, hEn] at h
          omega
        · by_cases hid : e2.id.truthy = true
          · rcases hW : engineOf opts E
                ("https://www.youtube.com/watch?v=" ++ e2.id.pyStr) with m | oinfo <;>
              simp [extract_info, hq, hS, hEn, hid, hW] at h
            · omega
          · simp [extract_info, hq, hS, hEn, hid] at h
            omega

theorem api_meta_spec (E : Engine) (r : Req) (c : Cache) (resp : Resp) (c2 : Cache)
    (h : api_meta E r c = some (resp, c2)) :
    (c2 = (if hasLatest r then cacheDelete (metaKeyOf r) c else c) ∨
      (resp.status = 200 ∧ dualParamsOk r ∧
        c2 = cacheSet (metaKeyOf r) resp.body
          (if hasLatest r then cacheDelete (metaKeyOf r) c else c))) ∧
    (resp.status = 200 → resp.body.truthy = true →
      cacheGet c2 (metaKeyOf r) = some resp.body) := by
  unfold api_meta at h
  dsimp only at h
  split at h
  · next cached heq =>
    obtain ⟨hget, htr⟩ := optionFilter_eq_some _ _ heq
    injection h with h1
    injection h1 with hr hc
    subst hr
    subst hc
    exact ⟨.inl rfl, fun _ _ => hget⟩
  · next heq =>
    split at h
    · injection h with h1
      injection h1 with hr hc
      subst hr
      subst hc
      refine ⟨.inl rfl, fun hs _ => ?_⟩
      simp at hs
    · next hok =>
      split at h
      · next fst err code heq2 =>
        injection h with h1
        injection h1 with hr hc
        subst hr
        subst hc
        refine ⟨.inl rfl, fun hs _ => ?_⟩
        have hcode := extract_info_code E (strOrNone (pyStrip (argGetD r "url" "")))
          (strOrNone (pyStrip (argGetD r "search" ""))) .meta err code
          (by rw [heq2])
        simp at hs
        omega
      · cases h
      · next info heq2 =>
        injection h with h1
        injection h1 with hr hc
        subst hr
        subst hc
        exact ⟨.inr ⟨rfl, hok, rfl⟩, fun _ _ => cacheGet_set_same _ _ _⟩

theorem api_meta_hit (E : Engine) (r : Req) (c : Cache) (v : J)
    (hl : hasLatest r = false) (hv : v.truthy = true)
    (hget : cacheGet c (metaKeyOf r) = some v) :
    api_meta E r c = some ({ status := 200, body := v }, c) := by
  unfold api_meta
  dsimp only
  rw [hl]
  simp only [Bool.false_eq_true, if_false]
  simp only [metaKeyOf] at hget
  rw [hget]
  simp [Option.filter, hv]

/-- Whether a channel/playlist request carries at least one of `id` and
`url` after stripping. -/
def idParamsOk (r : Req) : Prop :=
  ¬(pyStrip (argGetD r "id" "") = "" ∧ pyStrip (argGetD r "url" "") = "")

theorem api_channel_spec (E : Engine) (r : Req) (c : Cache) (resp : Resp) (c2 : Cache)
    (h : api_channel E r c = some (resp, c2)) :
    (c2 = (if hasLatest r then cacheDelete (channelKeyOf r) c else c) ∨
      (resp.status = 200 ∧ idParamsOk r ∧
        c2 = cacheSet (channelKeyOf r) resp.body
          (if hasLatest r then cacheDelete (channelKeyOf r) c else c))) ∧
    (resp.status = 200 → resp.body.truthy = true →
      cacheGet c2 (channelKeyOf r) = some resp.body) := by
  unfold api_channel at h
  dsimp only at h
  split at h
  · next cached heq =>
    obtain ⟨hget, htr⟩ := optionFilter_eq_some _ _ heq
    injection h with h1
    injection h1 with hr hc
    subst hr
    subst hc
    exact ⟨.inl rfl, fun _ _ => hget⟩
  · next heq =>
    split at h
    · injection h with h1
      injection h1 with hr hc
      subst hr
      subst hc
      refine ⟨.inl rfl, fun hs _ => ?_⟩
      simp at hs
    · next hok =>
      split at h
      · injection h with h1
        injection h1 with hr hc
        subst hr
        subst hc
        refine ⟨.inl rfl, fun hs _ => ?_⟩
        simp at hs
      · injection h with h1
        injection h1 with hr hc
        subst hr
        subst hc
        refine ⟨.inl rfl, fun hs _ => ?_⟩
        simp at hs
      · injection h with h1
        injection h1 with hr hc
        subst hr
        subst hc
        exact ⟨.inr ⟨rfl, hok, rfl⟩, fun _ _ => cacheGet_set_same _ _ _⟩

theorem api_channel_hit (E : Engine) (r : Req) (c : Cache) (v : J)
    (hl : hasLatest r = false) (hv : v.truthy = true)
    (hget : cacheGet c (channelKeyOf r) = some v) :
    api_channel E r c = some ({ status := 200, body := v }, c) := by
  unfold api_channel
  dsimp only
  rw [hl]
  simp only [Bool.false_eq_true, if_false]
  simp only [channelKeyOf] at hget
  rw [hget]
  simp [Option.filter, hv]

theorem api_playlist_spec (E : Engine) (r : Req) (c : Cache) (resp : Resp) (c2 : Cache)
    (h : api_playlist E r c = some (resp, c2)) :
    (c2 = (if hasLatest r then cacheDelete (playlistKeyOf r) c else c) ∨
      (resp.status = 200 ∧ idParamsOk r ∧
        c2 = cacheSet (playlistKeyOf r) resp.body
          (if hasLatest r then cacheDelete (playlistKeyOf r) c else c))) ∧
    (resp.status = 200 → resp.body.truthy = true →
      cacheGet c2 (playlistKeyOf r) = some resp.body) := by
  unfold api_playlist at h
  dsimp only at h
  split at h
  · next cached heq =>
    obtain ⟨hget, htr⟩ := optionFilter_eq_some _ _ heq
    injection h with h1
    injection h1 with hr hc
    subst hr
    subst hc
    exact ⟨.inl rfl, fun _ _ => hget⟩
  · next heq =>
    split at h
    · injection h with h1
      injection h1 with hr hc
      subst hr
      subst hc
      refine ⟨.inl rfl, fun hs _ => ?_⟩
      simp at hs
    · next hok =>
      split at h
      · injection h with h1
        injection h1 with hr hc
        subst hr
        subst hc
        refine ⟨.inl rfl, fun hs _ => ?_⟩
        simp at hs
      · injection h with h1
        injection h1 with hr hc
        subst hr
        subst hc
        refine ⟨.inl rfl, fun hs _ => ?_⟩
        simp at hs
      · injection h with h1
        injection h1 with hr hc
        subst hr
        subst hc
        exact ⟨.inr ⟨rfl, hok, rfl⟩, fun _ _ => cacheGet_set_same _ _ _⟩

theorem api_playlist_hit (E : Engine) (r : Req) (c : Cache) (v : J)
    (hl : hasLatest r = false) (hv : v.truthy = true)
    (hget : cacheGet c (playlistKeyOf r) = some v) :
    api_playlist E r c = some ({ status := 200, body := v }, c) := by
  unfold api_playlist
  dsimp only
  rw [hl]
  simp only [Bool.false_eq_true, if_false]
  simp only [playlistKeyOf] at hget
  rw [hget]
  simp [Option.filter, hv]

theorem api_all_cache (E : Engine) (r : Req) (c : Cache) (resp : Resp) (c2 : Cache)
    (h : api_all E r c = some (resp, c2)) : c2 = c := by
  unfold api_all at h
  dsimp only at h
  split at h
  · injection h with h1
    injection h1 with hr hc
    exact hc.symm
  · split at h
    · injection h with h1
      injection h1 with hr hc
      exact hc.symm
    · cases h
    · split at h
      · cases h
      · injection h with h1
        injection h1 with hr hc
        exact hc.symm

theorem api_download_cache (E : Engine) (r : Req) (c : Cache) (resp : Resp) (c2 : Cache)
    (h : api_download E r c = some (resp, c2)) : c2 = c := by
  unfold api_download at h
  dsimp only at h
  split at h
  · injection h with h1
    injection h1 with hr hc
    exact hc.symm
  · split at h
    · injection h with h1
      injection h1 with hr hc
      exact hc.symm
    · injection h with h1
      injection h1 with hr hc
      exact hc.symm
    · split at h
      · injection h with h1
        injection h1 with hr hc
        exact hc.symm
      · injection h with h1
        injection h1 with hr hc
        exact hc.symm

theorem api_audio_cache (E : Engine) (r : Req) (c : Cache) (resp : Resp) (c2 : Cache)
    (h : api_audio E r c = some (resp, c2)) : c2 = c := by
  unfold api_audio at h
  dsimp only at h
  split at h
  · injection h with h1
    injection h1 with hr hc
    exact hc.symm
  · split at h
    · injection h with h1
      injection h1 with hr hc
      exact hc.symm
    · injection h with h1
      injection h1 with hr hc
      exact hc.symm
    · split at h
      · injection h with h1
        injection h1 with hr hc
        exact hc.symm
      · split at h
        · injection h with h1
          injection h1 with hr hc
          exact hc.symm
        · injection h with h1
          injection h1 with hr hc
          exact hc.symm

theorem api_video_cache (E : Engine) (r : Req) (c : Cache) (resp : Resp) (c2 : Cache)
    (h : api_video E r c = some (resp, c2)) : c2 = c := by
  unfold api_video at h
  dsimp only at h
  split at h
  · injection h with h1
    injection h1 with hr hc
    exact hc.symm
  · split at h
    · injection h with h1
      injection h1 with hr hc
      exact hc.symm
    · cases h
    · injection h with h1
      injection h1 with hr hc
      exact hc.symm

theorem test_endpoint_cache (E : Engine) (r : Req) (c : Cache) (resp : Resp) (c2 : Cache)
    (h : test_endpoint E r c = some (resp, c2)) : c2 = c := by
  unfold test_endpoint at h
  injection h with h1
  injection h1 with hr hc
  exact hc.symm

/-! ### Claim C10: error responses never write the cache -/

/-- Claim C10: on every caching route, a request without the `latest`
flag that produces an error response (400, 404 or 500) leaves the cache
state exactly as it was. -/
theorem C10_theorem (rt : Route) (E : Engine) (r : Req) (c : Cache) (resp : Resp)
    (c2 : Cache) (hcache : isCaching rt = true) (hl : hasLatest r = false)
    (hd : dispatch rt E r c = some (resp, c2))
    (herr : resp.status = 400 ∨ resp.status = 404 ∨ resp.status = 500) : c2 = c := by
  unfold dispatch at hd
  split at hd
  · injection hd with h1
    injection h1 with hr hc
    exact hc.symm
  · cases rt
    case home =>
      obtain ⟨h1, -⟩ := home_spec E r c resp c2 hd
      rw [hl] at h1
      simp only [Bool.false_eq_true, if_false] at h1
      rcases h1 with h1 | ⟨hs, h1⟩
      · exact h1
      · rcases herr with hx | hx | hx <;> omega
    case fastMeta =>
      obtain ⟨h1, -⟩ := api_fast_meta_spec E r c resp c2 hd
      rw [hl] at h1
      simp only [Bool.false_eq_true, if_false] at h1
      rcases h1 with h1 | ⟨hs, -, h1⟩
      · exact h1
      · rcases herr with hx | hx | hx <;> omega
    case meta =>
      obtain ⟨h1, -⟩ := api_meta_spec E r c resp c2 hd
      rw [hl] at h1
      simp only [Bool.false_eq_true, if_false] at h1
      rcases h1 with h1 | ⟨hs, -, h1⟩
      · exact h1
      · rcases herr with hx | hx | hx <;> omega
    case channel =>
      obtain ⟨h1, -⟩ := api_channel_spec E r c resp c2 hd
      rw [hl] at h1
      simp only [Bool.false_eq_true, if_false] at h1
      rcases h1 with h1 | ⟨hs, -, h1⟩
      · exact h1
      · rcases herr with hx | hx | hx <;> omega
    case playlist =>
      obtain ⟨h1, -⟩ := api_playlist_spec E r c resp c2 hd
      rw [hl] at h1
      simp only [Bool.false_eq_true, if_false] at h1
      rcases h1 with h1 | ⟨hs, -, h1⟩
      · exact h1
      · rcases herr with hx | hx | hx <;> omega
    case instagram =>
      obtain ⟨h1, -⟩ := social_handler_spec "instagram" "Instagram" E r c resp c2 hd
      rw [hl] at h1
      simp only [Bool.false_eq_true, if_false] at h1
      rcases h1 with h1 | ⟨hs, h1⟩
      · exact h1
      · rcases herr with hx | hx | hx <;> omega
    case twitter =>
      obtain ⟨h1, -⟩ := social_handler_spec "twitter" "Twitter" E r c resp c2 hd
      rw [hl] at h1
      simp only [Bool.false_eq_true, if_false] at h1
      rcases h1 with h1 | ⟨hs, h1⟩
      · exact h1
      · rcases herr with hx | hx | hx <;> omega
    case tiktok =>
      obtain ⟨h1, -⟩ := social_handler_spec "tiktok" "TikTok" E r c resp c2 hd
      rw [hl] at h1
      simp only [Bool.false_eq_true, if_false] at h1
      rcases h1 with h1 | ⟨hs, h1⟩
      · exact h1
      · rcases herr with hx | hx | hx <;> omega
    case facebook =>
      obtain ⟨h1, -⟩ := social_handler_spec "facebook" "Facebook" E r c resp c2 hd
      rw [hl] at h1
      simp only [Bool.false_eq_true, if_false] at h1
      rcases h1 with h1 | ⟨hs, h1⟩
      · exact h1
      · rcases herr with hx | hx | hx <;> omega
    case all => simp [isCaching] at hcache
    case download => simp [isCaching] at hcache
    case audio => simp [isCaching] at hcache
    case video => simp [isCaching] at hcache
    case test => simp [isCaching] at hcache

/-- An authorized request carrying no other parameters. -/
def reqNoParams : Req := { args := [("api_key", "zefron@123")], headers := [] }

/-- Claim C10 (witness): the 400 answer of `/api/meta` on a
parameterless request leaves the empty cache empty. -/
theorem C10_witness : emptyCache = emptyCache :=
  C10_theorem .meta engErr reqNoParams emptyCache
    { status := 400, body := errBody "Provide \"url\" or \"search\"" } emptyCache
    rfl rfl rfl (.inl rfl)

/-! ### Claim C3: repeat requests, cache hits and the `latest` flag -/

def infoA : Info := { title := .s "title A" }

def infoB : Info := { title := .s "title B" }

def engA : Engine :=
  { ydlFull := fun _ => .ok (some infoA), ydlMeta := fun _ => .ok (some infoA),
    ytSearch := fun _ => .error "x", now := "" }

def engB : Engine :=
  { ydlFull := fun _ => .ok (some infoB), ydlMeta := fun _ => .ok (some infoB),
    ytSearch := fun _ => .error "x", now := "" }

/-- Claim C3 (counterexample): `/api/all` does not cache at all — it
ignores `latest` and recomputes on every call — so when the external
world changes between two identical requests the two 200 bodies differ,
and the second call is not a cache hit. -/
theorem C3_counterexample :
    dispatch .all engA reqUrlW emptyCache =
      some ({ status := 200, body := allBody infoA [] [] }, emptyCache) ∧
    dispatch .all engB reqUrlW emptyCache =
      some ({ status := 200, body := allBody infoB [] [] }, emptyCache) ∧
    allBody infoA [] [] ≠ allBody infoB [] [] ∧
    cacheKey .all reqUrlW = none := by
  refine ⟨rfl, rfl, ?_, rfl⟩
  intro h
  simp [allBody, infoA, infoB] at h

/-- Claim C3 (amended): on the nine caching routes (home, fast-meta,
meta, channel, playlist, instagram, twitter, tiktok, facebook),
repeating an identical authorized request without `latest` after a 200
response with a truthy body yields the same body again from the cache,
with the cache unchanged, even if the external world changed in between;
and with `latest` supplied the cached entry is deleted before lookup, so
the outcome is as if the entry had never been cached.  The other routes
(/api/all, /download, /api/audio, /api/video, /test) have no cache key
at all: they ignore `latest` and recompute on every request. -/
theorem C3_amended :
    (∀ rt, isCaching rt = true → ∀ (E1 E2 : Engine) (r : Req) (c : Cache)
      (resp1 : Resp) (c1 : Cache),
      hasLatest r = false →
      dispatch rt E1 r c = some (resp1, c1) →
      resp1.status = 200 → resp1.body.truthy = true →
      dispatch rt E2 r c1 = some ({ status := 200, body := resp1.body }, c1)) ∧
    (∀ rt, isCaching rt = true → ∀ (E : Engine) (r : Req) (c : Cache) (k : String),
      hasLatest r = true → effectiveApiKey r = some API_KEY → cacheKey rt r = some k →
      dispatch rt E r c = dispatch rt E r (cacheDelete k c)) ∧
    (∀ rt (r : Req), isCaching rt = false → cacheKey rt r = none) := by
  refine ⟨?_, ?_, ?_⟩
  · intro rt hc E1 E2 r c resp1 c1 hl hd hs htr
    unfold dispatch at hd ⊢
    split at hd
    · injection hd with h1
      injection h1 with hr hcc
      rw [← hr] at hs
      simp [unauthorized] at hs
    · next hkey =>
      rw [if_neg hkey]
      cases rt
      case home =>
        have hget := (home_spec E1 r c resp1 c1 hd).2 hs htr
        exact home_hit E2 r c1 resp1.body hl htr hget
      case fastMeta =>
        have hget := (api_fast_meta_spec E1 r c resp1 c1 hd).2 hs htr
        exact api_fast_meta_hit E2 r c1 resp1.body hl htr hget
      case meta =>
        have hget := (api_meta_spec E1 r c resp1 c1 hd).2 hs htr
        exact api_meta_hit E2 r c1 resp1.body hl htr hget
      case channel =>
        have hget := (api_channel_spec E1 r c resp1 c1 hd).2 hs htr
        exact api_channel_hit E2 r c1 resp1.body hl htr hget
      case playlist =>
        have hget := (api_playlist_spec E1 r c resp1 c1 hd).2 hs htr
        exact api_playlist_hit E2 r c1 resp1.body hl htr hget
      case instagram =>
        have hget := (social_handler_spec "instagram" "Instagram" E1 r c resp1 c1 hd).2 hs htr
        exact social_handler_hit "instagram" "Instagram" E2 r c1 resp1.body hl htr hget
      case twitter =>
        have hget := (social_handler_spec "twitter" "Twitter" E1 r c resp1 c1 hd).2 hs htr
        exact social_handler_hit "twitter" "Twitter" E2 r c1 resp1.body hl htr hget
      case tiktok =>
        have hget := (social_handler_spec "tiktok" "TikTok" E1 r c resp1 c1 hd).2 hs htr
        exact social_handler_hit "tiktok" "TikTok" E2 r c1 resp1.body hl htr hget
      case facebook =>
        have hget := (social_handler_spec "facebook" "Facebook" E1 r c resp1 c1 hd).2 hs htr
        exact social_handler_hit "facebook" "Facebook" E2 r c1 resp1.body hl htr hget
      case all => simp [isCaching] at hc
      case download => simp [isCaching] at hc
      case audio => simp [isCaching] at hc
      case video => simp [isCaching] at hc
      case test => simp [isCaching] at hc
  · intro rt hc E r c k hl hauth hkey
    have hkey2 : ¬ effectiveApiKey r ≠ some API_KEY := by simp [hauth]
    unfold dispatch
    rw [if_neg hkey2, if_neg hkey2]
    cases rt
    case home =>
      injection hkey with hk
      subst hk
      dsimp only [routeHandler]
      unfold home
      dsimp only
      rw [hl]
      simp only [if_true]
      rw [cacheDelete_delete]
    case fastMeta =>
      injection hkey with hk
      subst hk
      dsimp only [routeHandler]
      unfold api_fast_meta
      dsimp only
      rw [hl]
      simp only [if_true]
      rw [cacheDelete_delete]
    case meta =>
      injection hkey with hk
      subst hk
      dsimp only [routeHandler]
      unfold api_meta
      dsimp only
      rw [hl]
      simp only [if_true]
      rw [cacheDelete_delete]
    case channel =>
      injection hkey with hk
      subst hk
      dsimp only [routeHandler]
      unfold api_channel
      dsimp only
      rw [hl]
      simp only [if_true]
      rw [cacheDelete_delete]
    case playlist =>
      injection hkey with hk
      subst hk
      dsimp only [routeHandler]
      unfold api_playlist
      dsimp only
      rw [hl]
      simp only [if_true]
      rw [cacheDelete_delete]
    case instagram =>
      injection hkey with hk
      subst hk
      dsimp only [routeHandler]
      unfold api_instagram social_handler
      dsimp only
      rw [hl]
      simp only [if_true]
      rw [cacheDelete_delete]
    case twitter =>
      injection hkey with hk
      subst hk
      dsimp only [routeHandler]
      unfold api_twitter social_handler
      dsimp only
      rw [hl]
      simp only [if_true]
      rw [cacheDelete_delete]
    case tiktok =>
      injection hkey with hk
      subst hk
      dsimp only [routeHandler]
      unfold api_tiktok social_handler
      dsimp only
      rw [hl]
      simp only [if_true]
      rw [cacheDelete_delete]
    case facebook =>
      injection hkey with hk
      subst hk
      dsimp only [routeHandler]
      unfold api_facebook social_handler
      dsimp only
      rw [hl]
      simp only [if_true]
      rw [cacheDelete_delete]
    case all => simp [isCaching] at hc
    case download => simp [isCaching] at hc
    case audio => simp [isCaching] at hc
    case video => simp [isCaching] at hc
    case test => simp [isCaching] at hc
  · intro rt r hc
    cases rt <;> first | rfl | simp [isCaching] at hc

/-- Claim C3 (witness for the amended theorem): a second `/` request
served from the cache written by the first, though the engine changed. -/
theorem C3_amended_witness :
    dispatch .home engOk reqNoParams (cacheSet "home" homeBody emptyCache) =
      some ({ status := 200, body := homeBody },
        cacheSet "home" homeBody emptyCache) :=
  C3_amended.1 .home rfl engErr engOk reqNoParams emptyCache
    { status := 200, body := homeBody } (cacheSet "home" homeBody emptyCache)
    rfl rfl rfl rfl

/-! ### Claim C5: missing parameters yield 400 on reachable caches -/

/-- Cache states reachable from the empty cache by dispatching any
sequence of requests. -/
inductive Reachable : Cache → Prop where
  | empty : Reachable emptyCache
  | step (rt : Route) (E : Engine) (r : Req) (c : Cache) (resp : Resp) (c2 : Cache) :
      Reachable c → dispatch rt E r c = some (resp, c2) → Reachable c2

/-- No handler ever stores anything under the degenerate keys that an
all-empty-parameter request would derive. -/
def noDegenerateKeys (c : Cache) : Prop :=
  cacheGet c "fast_meta::" = none ∧ cacheGet c "meta::" = none ∧
  cacheGet c "channel:" = none ∧ cacheGet c "playlist:" = none

theorem cacheGet_delete_none (k b : String) (c : Cache) (h : cacheGet c b = none) :
    cacheGet (cacheDelete k c) b = none := by
  by_cases hbk : b = k
  · subst hbk
    exact cacheGet_delete_same b c
  · rw [cacheGet_delete_ne k b c hbk]
    exact h

theorem noDegenerateKeys_delete (k : String) (c : Cache) (h : noDegenerateKeys c) :
    noDegenerateKeys (cacheDelete k c) := by
  obtain ⟨i1, i2, i3, i4⟩ := h
  exact ⟨cacheGet_delete_none k _ c i1, cacheGet_delete_none k _ c i2,
    cacheGet_delete_none k _ c i3, cacheGet_delete_none k _ c i4⟩

theorem noDegenerateKeys_ite (b : Bool) (k : String) (c : Cache)
    (h : noDegenerateKeys c) :
    noDegenerateKeys (if b = true then cacheDelete k c else c) := by
  cases b
  · simpa using h
  · simpa using noDegenerateKeys_delete k c h

theorem noDegenerateKeys_set (k : String) (v : J) (c : Cache) (h : noDegenerateKeys c)
    (h1 : k ≠ "fast_meta::") (h2 : k ≠ "meta::") (h3 : k ≠ "channel:")
    (h4 : k ≠ "playlist:") : noDegenerateKeys (cacheSet k v c) := by
  obtain ⟨i1, i2, i3, i4⟩ := h
  refine ⟨?_, ?_, ?_, ?_⟩
  · rw [cacheGet_set_ne k _ v c (Ne.symm h1)]
    exact i1
  · rw [cacheGet_set_ne k _ v c (Ne.symm h2)]
    exact i2
  · rw [cacheGet_set_ne k _ v c (Ne.symm h3)]
    exact i3
  · rw [cacheGet_set_ne k _ v c (Ne.symm h4)]
    exact i4

theorem fastMetaKey_not_degenerate (r : Req) (hok : dualParamsOk r) :
    fastMetaKeyOf r ≠ "fast_meta::" ∧ fastMetaKeyOf r ≠ "meta::" ∧
    fastMetaKeyOf r ≠ "channel:" ∧ fastMetaKeyOf r ≠ "playlist:" := by
  refine ⟨?_, ?_, ?_, ?_⟩
  · intro h
    have h2 : "fast_meta:" ++ pyStrip (argGetD r "search" "") ++ ":" ++
        pyStrip (argGetD r "url" "") = "fast_meta:" ++ ":" := h
    exact hok (key2_eq_empty _ _ _ h2)
  · exact str_ne_of_head _ _ 'f' 'm' rfl rfl (by decide)
  · exact str_ne_of_head _ _ 'f' 'c' rfl rfl (by decide)
  · exact str_ne_of_head _ _ 'f' 'p' rfl rfl (by decide)

theorem metaKey_not_degenerate (r : Req) (hok : dualParamsOk r) :
    metaKeyOf r ≠ "fast_meta::" ∧ metaKeyOf r ≠ "meta::" ∧
    metaKeyOf r ≠ "channel:" ∧ metaKeyOf r ≠ "playlist:" := by
  refine ⟨?_, ?_, ?_, ?_⟩
  · exact str_ne_of_head _ _ 'm' 'f' rfl rfl (by decide)
  · intro h
    have h2 : "meta:" ++ pyStrip (argGetD r "search" "") ++ ":" ++
        pyStrip (argGetD r "url" "") = "meta:" ++ ":" := h
    exact hok (key2_eq_empty _ _ _ h2)
  · exact str_ne_of_head _ _ 'm' 'c' rfl rfl (by decide)
  · exact str_ne_of_head _ _ 'm' 'p' rfl rfl (by decide)

theorem channelKey_not_degenerate (r : Req) (hok : idParamsOk r) :
    channelKeyOf r ≠ "fast_meta::" ∧ channelKeyOf r ≠ "meta::" ∧
    channelKeyOf r ≠ "channel:" ∧ channelKeyOf r ≠ "playlist:" := by
  refine ⟨?_, ?_, ?_, ?_⟩
  · exact str_ne_of_head _ _ 'c' 'f' rfl rfl (by decide)
  · exact str_ne_of_head _ _ 'c' 'm' rfl rfl (by decide)
  · intro h
    have hk := append_eq_self "channel:" _ h
    by_cases hcid : pyStrip (argGetD r "id" "") ≠ ""
    · rw [if_pos hcid] at hk
      exact hcid hk
    · rw [if_neg hcid] at hk
      push_neg at hcid
      exact hok ⟨hcid, hk⟩
  · exact str_ne_of_head _ _ 'c' 'p' rfl rfl (by decide)

theorem playlistKey_not_degenerate (r : Req) (hok : idParamsOk r) :
    playlistKeyOf r ≠ "fast_meta::" ∧ playlistKeyOf r ≠ "meta::" ∧
    playlistKeyOf r ≠ "channel:" ∧ playlistKeyOf r ≠ "playlist:" := by
  refine ⟨?_, ?_, ?_, ?_⟩
  · exact str_ne_of_head _ _ 'p' 'f' rfl rfl (by decide)
  · exact str_ne_of_head _ _ 'p' 'm' rfl rfl (by decide)
  · exact str_ne_of_head _ _ 'p' 'c' rfl rfl (by decide)
  · intro h
    have hk := append_eq_self "playlist:" _ h
    by_cases hpid : pyStrip (argGetD r "id" "") ≠ ""
    · rw [if_pos hpid] at hk
      exact hpid hk
    · rw [if_neg hpid] at hk
      push_neg at hpid
      exact hok ⟨hpid, hk⟩

theorem instagramKey_not_degenerate (r : Req) :
    socialKeyOf "instagram" r ≠ "fast_meta::" ∧ socialKeyOf "instagram" r ≠ "meta::" ∧
    socialKeyOf "instagram" r ≠ "channel:" ∧ socialKeyOf "instagram" r ≠ "playlist:" :=
  ⟨str_ne_of_head _ _ 'i' 'f' rfl rfl (by decide),
   str_ne_of_head _ _ 'i' 'm' rfl rfl (by decide),
   str_ne_of_head _ _ 'i' 'c' rfl rfl (by decide),
   str_ne_of_head _ _ 'i' 'p' rfl rfl (by decide)⟩

theorem twitterKey_not_degenerate (r : Req) :
    socialKeyOf "twitter" r ≠ "fast_meta::" ∧ socialKeyOf "twitter" r ≠ "meta::" ∧
    socialKeyOf "twitter" r ≠ "channel:" ∧ socialKeyOf "twitter" r ≠ "playlist:" :=
  ⟨str_ne_of_head _ _ 't' 'f' rfl rfl (by decide),
   str_ne_of_head _ _ 't' 'm' rfl rfl (by decide),
   str_ne_of_head _ _ 't' 'c' rfl rfl (by decide),
   str_ne_of_head _ _ 't' 'p' rfl rfl (by decide)⟩

theorem tiktokKey_not_degenerate (r : Req) :
    socialKeyOf "tiktok" r ≠ "fast_meta::" ∧ socialKeyOf "tiktok" r ≠ "meta::" ∧
    socialKeyOf "tiktok" r ≠ "channel:" ∧ socialKeyOf "tiktok" r ≠ "playlist:" :=
  ⟨str_ne_of_head _ _ 't' 'f' rfl rfl (by decide),
   str_ne_of_head _ _ 't' 'm' rfl rfl (by decide),
   str_ne_of_head _ _ 't' 'c' rfl rfl (by decide),
   str_ne_of_head _ _ 't' 'p' rfl rfl (by decide)⟩

theorem facebookKey_not_degenerate (r : Req) :
    socialKeyOf "facebook" r ≠ "fast_meta::" ∧ socialKeyOf "facebook" r ≠ "meta::" ∧
    socialKeyOf "facebook" r ≠ "channel:" ∧ socialKeyOf "facebook" r ≠ "playlist:" :=
  ⟨str_ne_of_take3 _ _ ['f', 'a', 'c'] ['f', 'a', 's'] rfl rfl (by decide),
   str_ne_of_head _ _ 'f' 'm' rfl rfl (by decide),
   str_ne_of_head _ _ 'f' 'c' rfl rfl (by decide),
   str_ne_of_head _ _ 'f' 'p' rfl rfl (by decide)⟩

theorem homeKey_not_degenerate :
    ("home" : String) ≠ "fast_meta::" ∧ ("home" : String) ≠ "meta::" ∧
    ("home" : String) ≠ "channel:" ∧ ("home" : String) ≠ "playlist:" := by
  refine ⟨?_, ?_, ?_, ?_⟩ <;> decide

/-- One dispatch step preserves the degenerate-key invariant. -/
theorem noDegenerateKeys_step (rt : Route) (E : Engine) (r : Req) (c : Cache)
    (resp : Resp) (c2 : Cache) (hd : dispatch rt E r c = some (resp, c2))
    (hinv : noDegenerateKeys c) : noDegenerateKeys c2 := by
  unfold dispatch at hd
  split at hd
  · injection hd with h1
    injection h1 with hr hc
    rw [← hc]
    exact hinv
  · cases rt
    case home =>
      obtain ⟨h1, -⟩ := home_spec E r c resp c2 hd
      obtain ⟨n1, n2, n3, n4⟩ := homeKey_not_degenerate
      rcases h1 with h1 | ⟨-, h1⟩ <;> subst h1
      · exact noDegenerateKeys_ite _ _ _ hinv
      · exact noDegenerateKeys_set _ _ _ (noDegenerateKeys_ite _ _ _ hinv) n1 n2 n3 n4
    case fastMeta =>
      obtain ⟨h1, -⟩ := api_fast_meta_spec E r c resp c2 hd
      rcases h1 with h1 | ⟨-, hok, h1⟩ <;> subst h1
      · exact noDegenerateKeys_ite _ _ _ hinv
      · obtain ⟨n1, n2, n3, n4⟩ := fastMetaKey_not_degenerate r hok
        exact noDegenerateKeys_set _ _ _ (noDegenerateKeys_ite _ _ _ hinv) n1 n2 n3 n4
    case meta =>
      obtain ⟨h1, -⟩ := api_meta_spec E r c resp c2 hd
      rcases h1 with h1 | ⟨-, hok, h1⟩ <;> subst h1
      · exact noDegenerateKeys_ite _ _ _ hinv
      · obtain ⟨n1, n2, n3, n4⟩ := metaKey_not_degenerate r hok
        exact noDegenerateKeys_set _ _ _ (noDegenerateKeys_ite _ _ _ hinv) n1 n2 n3 n4
    case channel =>
      obtain ⟨h1, -⟩ := api_channel_spec E r c resp c2 hd
      rcases h1 with h1 | ⟨-, hok, h1⟩ <;> subst h1
      · exact noDegenerateKeys_ite _ _ _ hinv
      · obtain ⟨n1, n2, n3, n4⟩ := channelKey_not_degenerate r hok
        exact noDegenerateKeys_set _ _ _ (noDegenerateKeys_ite _ _ _ hinv) n1 n2 n3 n4
    case playlist =>
      obtain ⟨h1, -⟩ := api_playlist_spec E r c resp c2 hd
      rcases h1 with h1 | ⟨-, hok, h1⟩ <;> subst h1
      · exact noDegenerateKeys_ite _ _ _ hinv
      · obtain ⟨n1, n2, n3, n4⟩ := playlistKey_not_degenerate r hok
        exact noDegenerateKeys_set _ _ _ (noDegenerateKeys_ite _ _ _ hinv) n1 n2 n3 n4
    case instagram =>
      obtain ⟨h1, -⟩ := social_handler_spec "instagram" "Instagram" E r c resp c2 hd
      obtain ⟨n1, n2, n3, n4⟩ := instagramKey_not_degenerate r
      rcases h1 with h1 | ⟨-, h1⟩ <;> subst h1
      · exact noDegenerateKeys_ite _ _ _ hinv
      · exact noDegenerateKeys_set _ _ _ (noDegenerateKeys_ite _ _ _ hinv) n1 n2 n3 n4
    case twitter =>
      obtain ⟨h1, -⟩ := social_handler_spec "twitter" "Twitter" E r c resp c2 hd
      obtain ⟨n1, n2, n3, n4⟩ := twitterKey_not_degenerate r
      rcases h1 with h1 | ⟨-, h1⟩ <;> subst h1
      · exact noDegenerateKeys_ite _ _ _ hinv
      · exact noDegenerateKeys_set _ _ _ (noDegenerateKeys_ite _ _ _ hinv) n1 n2 n3 n4
    case tiktok =>
      obtain ⟨h1, -⟩ := social_handler_spec "tiktok" "TikTok" E r c resp c2 hd
      obtain ⟨n1, n2, n3, n4⟩ := tiktokKey_not_degenerate r
      rcases h1 with h1 | ⟨-, h1⟩ <;> subst h1
      · exact noDegenerateKeys_ite _ _ _ hinv
      · exact noDegenerateKeys_set _ _ _ (noDegenerateKeys_ite _ _ _ hinv) n1 n2 n3 n4
    case facebook =>
      obtain ⟨h1, -⟩ := social_handler_spec "facebook" "Facebook" E r c resp c2 hd
      obtain ⟨n1, n2, n3, n4⟩ := facebookKey_not_degenerate r
      rcases h1 with h1 | ⟨-, h1⟩ <;> subst h1
      · exact noDegenerateKeys_ite _ _ _ hinv
      · exact noDegenerateKeys_set _ _ _ (noDegenerateKeys_ite _ _ _ hinv) n1 n2 n3 n4
    case all =>
      rw [api_all_cache E r c resp c2 hd]
      exact hinv
    case download =>
      rw [api_download_cache E r c resp c2 hd]
      exact hinv
    case audio =>
      rw [api_audio_cache E r c resp c2 hd]
      exact hinv
    case video =>
      rw [api_video_cache E r c resp c2 hd]
      exact hinv
    case test =>
      rw [test_endpoint_cache E r c resp c2 hd]
      exact hinv

/-- Every reachable cache satisfies the degenerate-key invariant. -/
theorem reachable_noDegenerateKeys (c : Cache) (h : Reachable c) : noDegenerateKeys c := by
  induction h with
  | empty => exact ⟨rfl, rfl, rfl, rfl⟩
  | step rt E r c resp c2 hreach hd ih => exact noDegenerateKeys_step rt E r c resp c2 hd ih

theorem api_fast_meta_400 (E : Engine) (r : Req) (c : Cache)
    (hu : argGet r "url" = none) (hs : argGet r "search" = none)
    (hget : cacheGet c "fast_meta::" = none) :
    ∃ c2, api_fast_meta E r c =
      some ({ status := 400,
              body := errBody "Provide either \"search\" or \"url\" parameter" }, c2) := by
  have e1 : argGetD r "search" "" = "" := by simp [argGetD, hs]
  have e2 : argGetD r "url" "" = "" := by simp [argGetD, hu]
  unfold api_fast_meta
  dsimp only
  rw [e1, e2]
  have e3 : pyStrip "" = "" := rfl
  rw [e3]
  have e4 : ("fast_meta:" ++ "" ++ ":" ++ "" : String) = "fast_meta::" := rfl
  rw [e4]
  cases hlat : hasLatest r
  · simp only [Bool.false_eq_true, if_false]
    rw [hget]
    exact ⟨c, rfl⟩
  · simp only [if_true]
    rw [cacheGet_delete_same]
    exact ⟨cacheDelete "fast_meta::" c, rfl⟩

theorem api_meta_400 (E : Engine) (r : Req) (c : Cache)
    (hu : argGet r "url" = none) (hs : argGet r "search" = none)
    (hget : cacheGet c "meta::" = none) :
    ∃ c2, api_meta E r c =
      some ({ status := 400, body := errBody "Provide \"url\" or \"search\"" }, c2) := by
  have e1 : argGetD r "search" "" = "" := by simp [argGetD, hs]
  have e2 : argGetD r "url" "" = "" := by simp [argGetD, hu]
  unfold api_meta
  dsimp only
  rw [e1, e2]
  have e3 : pyStrip "" = "" := rfl
  rw [e3]
  have e4 : ("meta:" ++ "" ++ ":" ++ "" : String) = "meta::" := rfl
  rw [e4]
  cases hlat : hasLatest r
  · simp only [Bool.false_eq_true, if_false]
    rw [hget]
    exact ⟨c, rfl⟩
  · simp only [if_true]
    rw [cacheGet_delete_same]
    exact ⟨cacheDelete "meta::" c, rfl⟩

theorem api_channel_400 (E : Engine) (r : Req) (c : Cache)
    (hid : argGet r "id" = none) (hu : argGet r "url" = none)
    (hget : cacheGet c "channel:" = none) :
    ∃ c2, api_channel E r c =
      some ({ status := 400,
              body := errBody "Provide \"url\" or \"id\" parameter for channel" }, c2) := by
  have e1 : argGetD r "id" "" = "" := by simp [argGetD, hid]
  have e2 : argGetD r "url" "" = "" := by simp [argGetD, hu]
  unfold api_channel
  dsimp only
  rw [e1, e2]
  have e3 : pyStrip "" = "" := rfl
  rw [e3]
  have e4 : ("channel:" ++ if ("" : String) ≠ "" then "" else "") = "channel:" := rfl
  rw [e4]
  cases hlat : hasLatest r
  · simp only [Bool.false_eq_true, if_false]
    rw [hget]
    exact ⟨c, rfl⟩
  · simp only [if_true]
    rw [cacheGet_delete_same]
    exact ⟨cacheDelete "channel:" c, rfl⟩

theorem api_playlist_400 (E : Engine) (r : Req) (c : Cache)
    (hid : argGet r "id" = none) (hu : argGet r "url" = none)
    (hget : cacheGet c "playlist:" = none) :
    ∃ c2, api_playlist E r c =
      some ({ status := 400,
              body := errBody "Provide \"url\" or \"id\" parameter for playlist" }, c2) := by
  have e1 : argGetD r "id" "" = "" := by simp [argGetD, hid]
  have e2 : argGetD r "url" "" = "" := by simp [argGetD, hu]
  unfold api_playlist
  dsimp only
  rw [e1, e2]
  have e3 : pyStrip "" = "" := rfl
  rw [e3]
  have e4 : ("playlist:" ++ if ("" : String) ≠ "" then "" else "") = "playlist:" := rfl
  rw [e4]
  cases hlat : hasLatest r
  · simp only [Bool.false_eq_true, if_false]
    rw [hget]
    exact ⟨c, rfl⟩
  · simp only [if_true]
    rw [cacheGet_delete_same]
    exact ⟨cacheDelete "playlist:" c, rfl⟩

theorem api_all_400 (E : Engine) (r : Req) (c : Cache)
    (hu : argGet r "url" = none) (hs : argGet r "search" = none) :
    api_all E r c =
      some ({ status := 400, body := errBody "Provide \"url\" or \"search\"" }, c) := by
  have e1 : argGetD r "search" "" = "" := by simp [argGetD, hs]
  have e2 : argGetD r "url" "" = "" := by simp [argGetD, hu]
  unfold api_all
  dsimp only
  rw [e1, e2]
  rfl

theorem api_download_400 (E : Engine) (r : Req) (c : Cache)
    (hu : argGet r "url" = none) (hs : argGet r "search" = none) :
    api_download E r c =
      some ({ status := 400, body := errBody "Provide \"url\" or \"search\" parameter" }, c) := by
  unfold api_download
  dsimp only
  rw [hu, hs]
  rfl

theorem api_audio_400 (E : Engine) (r : Req) (c : Cache)
    (hu : argGet r "url" = none) (hs : argGet r "search" = none) :
    api_audio E r c =
      some ({ status := 400, body := errBody "Provide \"url\" or \"search\" parameter" }, c) := by
  unfold api_audio
  dsimp only
  rw [hu, hs]
  rfl

theorem api_video_400 (E : Engine) (r : Req) (c : Cache)
    (hu : argGet r "url" = none) (hs : argGet r "search" = none) :
    api_video E r c =
      some ({ status := 400, body := errBody "Provide \"url\" or \"search\"" }, c) := by
  unfold api_video
  dsimp only
  rw [hu, hs]
  rfl

/-- Claim C5: on every reachable cache state, an authorized request to a
dual-input endpoint that supplies neither of its two input parameters is
answered 400 with a JSON `error` body.  (For fast-meta and meta the
cache lookup happens before the parameter check, so this needs the
invariant that no handler ever stores the degenerate all-empty key.) -/
theorem C5_theorem (rt : Route) (E : Engine) (r : Req) (c : Cache)
    (hreach : Reachable c) (hauth : effectiveApiKey r = some API_KEY) :
    ((rt = .fastMeta ∨ rt = .all ∨ rt = .meta ∨ rt = .download ∨ rt = .audio ∨
        rt = .video) →
      argGet r "url" = none → argGet r "search" = none →
      ∃ msg c2, dispatch rt E r c = some ({ status := 400, body := errBody msg }, c2) ∧
        hasErrorKey (errBody msg) = true) ∧
    ((rt = .channel ∨ rt = .playlist) →
      argGet r "id" = none → argGet r "url" = none →
      ∃ msg c2, dispatch rt E r c = some ({ status := 400, body := errBody msg }, c2) ∧
        hasErrorKey (errBody msg) = true) := by
  have hinv := reachable_noDegenerateKeys c hreach
  have hkey2 : ¬ effectiveApiKey r ≠ some API_KEY := by simp [hauth]
  constructor
  · intro hrt hu hs
    unfold dispatch
    rw [if_neg hkey2]
    rcases hrt with rfl | rfl | rfl | rfl | rfl | rfl
    · obtain ⟨c2, hfm⟩ := api_fast_meta_400 E r c hu hs hinv.1
      exact ⟨_, c2, hfm, rfl⟩
    · exact ⟨_, c, api_all_400 E r c hu hs, rfl⟩
    · obtain ⟨c2, hm⟩ := api_meta_400 E r c hu hs hinv.2.1
      exact ⟨_, c2, hm, rfl⟩
    · exact ⟨_, c, api_download_400 E r c hu hs, rfl⟩
    · exact ⟨_, c, api_audio_400 E r c hu hs, rfl⟩
    · exact ⟨_, c, api_video_400 E r c hu hs, rfl⟩
  · intro hrt hid hu
    unfold dispatch
    rw [if_neg hkey2]
    rcases hrt with rfl | rfl
    · obtain ⟨c2, hch⟩ := api_channel_400 E r c hid hu hinv.2.2.1
      exact ⟨_, c2, hch, rfl⟩
    · obtain ⟨c2, hpl⟩ := api_playlist_400 E r c hid hu hinv.2.2.2
      exact ⟨_, c2, hpl, rfl⟩

/-- Claim C5 (witness): `/api/fast-meta` with no parameters on the empty
(reachable) cache answers 400. -/
theorem C5_witness :
    ∃ msg c2, dispatch .fastMeta engErr reqNoParams emptyCache =
      some ({ status := 400, body := errBody msg }, c2) ∧
      hasErrorKey (errBody msg) = true :=
  (C5_theorem .fastMeta engErr reqNoParams emptyCache Reachable.empty (by decide)).1
    (.inl rfl) rfl rfl
